import Mathlib

/-!
Shallow embedding of the qbasic-vm execution engine: the virtual machine,
its instruction set and syscall layer (VirtualMachine.ts), and the
error-reporting path of the GLR parser's parse loop (GlrParser.js),
together with theorems checking the specification's claims.

Modelling conventions:
* JS numbers are modelled as exact rationals (`Rat`); `NaN` is the
  distinguished value `Value.nanV`.  Floating-point rounding is not
  modelled; no claim below depends on it.
* The JS object graph holding variables is modelled by an explicit heap:
  `objs` holds ScalarVariable / ArrayVariable / user-record objects and
  `maps` holds the per-frame variable maps, so that JS reference equality
  becomes equality of heap indices.
* The operand stack is a `List Value` whose HEAD is the top of the JS
  array (`vm.stack[vm.stack.length - 1]`).  The call stack keeps the JS
  order: index 0 is the main frame, the last element is the top frame.
* External nondeterminism (Math.random, Date, the key buffer, the console
  cursor column) is passed in explicitly through an `Ext` record; calls
  out to the console / audio device / host are recorded as operation
  lists in the state.
* A thrown JS exception is a `JsErr`: either a `RuntimeError` (the class
  defined in VirtualMachine.ts) or any other thrown value (`JsErr.other`,
  e.g. a TypeError from a property access on undefined).  A function that
  can throw returns the state at the moment of the throw together with
  the error, since JS mutations are not rolled back by a throw.
-/

namespace QB

/-- Source position attached to tokens and instructions (Tokenizer.ts
`Locus`): a (line, position) pair. -/
structure Locus where
  line : Nat
  position : Nat
  deriving DecidableEq, Repr

/-- Scalar type names of the dialect.  Modelled from the spec: Types.ts is
not under src/; spec section 3 lists INTEGER, LONG, SINGLE, DOUBLE,
STRING, "each with a canonical zero value". -/
inductive ScalarTypeName where
  | INTEGER
  | LONG
  | SINGLE
  | DOUBLE
  | STRING
  deriving DecidableEq, Repr

/-- A type object (`SomeType`): a scalar type or a user-defined record
type (an ordered list of field name / scalar type pairs).  Modelled from
the spec: Types.ts is not under src/. -/
inductive VmType where
  | scalar (s : ScalarTypeName)
  | user (fields : List (String × ScalarTypeName))
  deriving DecidableEq, Repr

/-- A JS value as it occurs on the VM's operand stack, in variable cells
and in the DATA pool.  `ref` is a reference into the object heap
(`VmSt.objs`); `typeV` is a type object pushed by `pushtype`; `vnull`
and `undefV` are JS `null` and `undefined`; `nanV` models `NaN`. -/
inductive Value where
  | num (q : Rat)
  | str (s : String)
  | vnull
  | undefV
  | nanV
  | ref (r : Nat)
  | typeV (t : VmType)
  deriving DecidableEq, Repr

/-- A heap object: a ScalarVariable `{ type, value }`, an ArrayVariable
`{ type, dimensions, values }` (cells are references to ScalarVariables),
or a user-record instance (field name to ScalarVariable reference). -/
inductive HObj where
  | scalar (type : VmType) (value : Value)
  | arr (type : VmType) (dims : List (Value × Value)) (cells : List Value)
  | user (fields : List (String × Value))
  deriving DecidableEq, Repr

/-- A stack frame (VirtualMachine.ts `StackFrame`): the return pc and a
reference (index into `VmSt.maps`) to its variables map, so that GOSUB's
sharing of the caller's map by reference is observable. -/
structure StackFrame where
  pc : Nat
  varsRef : Nat
  deriving DecidableEq, Repr

/-- Runtime error codes (VirtualMachine.ts `RuntimeErrorCodes`). -/
def RuntimeErrorCodes.DIVISION_BY_ZERO : Nat := 101

/-- Stack overflow code (201). -/
def RuntimeErrorCodes.STACK_OVERFLOW : Nat := 201

/-- Stack underflow code (202). -/
def RuntimeErrorCodes.STACK_UNDERFLOW : Nat := 202

/-- Unknown-syscall code (301, spelled UKNOWN_SYSCALL in the source). -/
def RuntimeErrorCodes.UKNOWN_SYSCALL : Nat := 301

/-- IO error code (401). -/
def RuntimeErrorCodes.IO_ERROR : Nat := 401

/-- A `RuntimeError` object (VirtualMachine.ts): code, message and an
optional locus. -/
structure RuntimeError where
  code : Nat
  message : String
  locus : Option Locus
  deriving DecidableEq, Repr

/-- A thrown JS value: either a `RuntimeError` instance or any other
exception (TypeError and the like), which `instanceof RuntimeError`
does not match. -/
inductive JsErr where
  | rt (e : RuntimeError)
  | other (msg : String)
  deriving DecidableEq, Repr

/-- The argument of a compiled instruction: a JS number, a JS string, or
absent (undefined). -/
inductive IArg where
  | num (q : Rat)
  | str (s : String)
  | noArg
  deriving DecidableEq, Repr

/-- External inputs read during one instruction: `Math.random()`, the
TIMER clock value, the two key-buffer reads of INKEY$, and the console
cursor column `cons.x`. -/
structure Ext where
  rnd : Rat
  timerVal : Rat
  key1 : Int
  key2 : Int
  consX : Nat
  deriving DecidableEq, Repr

/-- A fixed external-input record used where the model needs a default. -/
def extZero : Ext := ⟨0, 0, -1, -1, 0⟩

/-- A call into the console device interface (`IConsole`), recorded in
order. -/
inductive ConsOp where
  | print (s : String)
  | cls
  | locate (row col : Value)
  | color (fg bg border : Value)
  | screen (mode : Value)
  | inputReq
  | onKeyTrap
  | createSprite (n img frames : Value)
  | offsetSprite (n x y : Value)
  | scaleSprite (n sx sy : Value)
  | rotateSprite (n angle : Value)
  | homeSprite (n hx hy : Value)
  | displaySprite (n : Value) (visible : Bool)
  | animateSprite (n from_ to_ : Value) (loop : Bool)
  | clearSprite (n : Value)
  deriving DecidableEq, Repr

/-- A call into the audio device interface (`IAudioDevice`). -/
inductive AudioOp where
  | playMusic (music repeat_ : Value)
  | stopMusic
  deriving DecidableEq, Repr

/-- A call into the host environment (setTimeout / requestAnimationFrame
registrations made by suspending syscalls). -/
inductive HostOp where
  | sleepTimeout (seconds : Value)
  | animationFrame
  deriving DecidableEq, Repr

/-- A variables map: JS object from variable name to the stored value
(normally a ScalarVariable / ArrayVariable reference). -/
abbrev VarMap := List (String × Value)

/-- The mutable state of the `VirtualMachine` object.  `instrCount`
models `this.instructions.length` (the instruction list itself is passed
separately to the dispatch loop, since instructions contain execute
functions); `interval` models whether the async ticker is active;
`events` records the emitted `error` events. -/
structure VmSt where
  stack : List Value
  pc : Nat
  callstack : List StackFrame
  frame : Option StackFrame
  instrCount : Nat
  types : List (String × VmType)
  shared : List String
  dataPtr : Nat
  data : List Value
  asynchronous : Bool
  suspended : Bool
  interval : Bool
  instructionsPerInterval : Nat
  lastRandomNumber : Rat
  defaultType : VmType
  objs : List HObj
  maps : List VarMap
  events : List RuntimeError
  consoleOps : List ConsOp
  audioOps : List AudioOp
  hostOps : List HostOp
  hasAudio : Bool

/-! ## JS value semantics helpers -/

/-- Truncation toward zero of a rational, as JS ToInt32 starts from. -/
def ratTrunc (q : Rat) : Int :=
  if q < 0 then -(Rat.floor (-q)) else Rat.floor q

/-- A nonnegative integer out of a JS number (used for addresses and
data indices, which are exact naturals in a linked program). -/
def ratToNat (q : Rat) : Nat := (Rat.floor q).toNat

/-- JS ToInt32 of a value; non-numbers map to 0 (claims never exercise
the string-coercion path). -/
def toInt32 (v : Value) : Int :=
  match v with
  | .num q =>
    let m : Int := (ratTrunc q) % 4294967296
    if m < 2147483648 then m else m - 4294967296
  | _ => 0

/-- The unsigned 32-bit pattern of ToInt32. -/
def toUint32 (v : Value) : Nat := ((toInt32 v) % 4294967296).toNat

/-- Signed reinterpretation of a 32-bit pattern. -/
def fromUint32 (n : Nat) : Int :=
  if n < 2147483648 then (n : Int) else (n : Int) - 4294967296

/-- JS truthiness of a value. -/
def jsTruthy (v : Value) : Bool :=
  match v with
  | .num q => decide (q ≠ 0)
  | .str s => decide (s ≠ "")
  | .vnull => false
  | .undefV => false
  | .nanV => false
  | .ref _ => true
  | .typeV _ => true

/-- String conversion of a JS number.  Integers render exactly; the
non-integer rendering deviates from JS decimal notation (no claim below
depends on it). -/
def ratToString (q : Rat) : String :=
  if q.den = 1 then toString q.num else toString q.num ++ "/" ++ toString q.den

/-- JS string coercion `'' + v`.  Objects render as their generic form. -/
def jsToString (v : Value) : String :=
  match v with
  | .num q => ratToString q
  | .str s => s
  | .vnull => "null"
  | .undefV => "undefined"
  | .nanV => "NaN"
  | .ref _ => "[object Object]"
  | .typeV _ => "[object Object]"

/-- JS strict equality `===`: value equality for primitives, reference
equality for objects, never true on NaN. -/
def jsStrictEq (a b : Value) : Bool :=
  match a, b with
  | .nanV, _ => false
  | _, .nanV => false
  | x, y => decide (x = y)

/-- JS `<` on two values: numeric and string comparisons are exact, any
other combination (including NaN) is false.  (JS would coerce mixed
operands; no claim depends on that path.) -/
def jsLt (a b : Value) : Bool :=
  match a, b with
  | .num x, .num y => decide (x < y)
  | .str x, .str y => decide (x < y)
  | _, _ => false

/-- JS `>`. -/
def jsGt (a b : Value) : Bool := jsLt b a

/-- JS `<=`. -/
def jsLe (a b : Value) : Bool :=
  match a, b with
  | .num x, .num y => decide (x ≤ y)
  | .str x, .str y => decide (x ≤ y)
  | _, _ => false

/-- JS `>=`. -/
def jsGe (a b : Value) : Bool := jsLe b a

/-- JS `+`: numeric addition or string concatenation; other coercions
collapse to NaN (no claim depends on them). -/
def jsAdd (a b : Value) : Value :=
  match a, b with
  | .num x, .num y => .num (x + y)
  | .str x, y => .str (x ++ jsToString y)
  | x, .str y => .str (jsToString x ++ y)
  | _, _ => .nanV

/-- JS `-` on numbers; NaN otherwise. -/
def jsSub (a b : Value) : Value :=
  match a, b with
  | .num x, .num y => .num (x - y)
  | _, _ => .nanV

/-- JS `*` on numbers; NaN otherwise. -/
def jsMul (a b : Value) : Value :=
  match a, b with
  | .num x, .num y => .num (x * y)
  | _, _ => .nanV

/-- JS `/` on numbers (exact rational division; the instruction guards
the zero divisor before calling this); NaN otherwise. -/
def jsDiv (a b : Value) : Value :=
  match a, b with
  | .num x, .num y => if y = 0 then .nanV else .num (x / y)
  | _, _ => .nanV

/-- JS `%` (remainder with the sign of the dividend) on numbers; NaN
otherwise. -/
def jsRem (a b : Value) : Value :=
  match a, b with
  | .num x, .num y => if y = 0 then .nanV else .num (x - y * ratTrunc (x / y))
  | _, _ => .nanV

/-- JS bitwise `&` through ToInt32. -/
def jsAnd (a b : Value) : Value :=
  .num ((fromUint32 (Nat.land (toUint32 a) (toUint32 b)) : Int) : Rat)

/-- JS bitwise `|` through ToInt32. -/
def jsOrB (a b : Value) : Value :=
  .num ((fromUint32 (Nat.lor (toUint32 a) (toUint32 b)) : Int) : Rat)

/-- JS bitwise complement `~` through ToInt32. -/
def jsNot (a : Value) : Value :=
  .num ((fromUint32 (Nat.xor (toUint32 a) 4294967295) : Int) : Rat)

/-- Number of iterations of `for (i = 0; i < argCount; i++)` for a popped
JS count value. -/
def valToCount (v : Value) : Nat :=
  match v with
  | .num q => (Int.ceil q).toNat
  | _ => 0

/-- Association-list lookup by string key (JS property read). -/
def lookupStr {α : Type} : List (String × α) → String → Option α
  | [], _ => none
  | (k, v) :: rest, key => if k = key then some v else lookupStr rest key

/-- Association-list update by string key (JS property write: an existing
key keeps its position, a new key is appended). -/
def setStr {α : Type} : List (String × α) → String → α → List (String × α)
  | [], key, v => [(key, v)]
  | (k, w) :: rest, key, v =>
    if k = key then (k, v) :: rest else (k, w) :: setStr rest key v

/-! ## Stack and heap primitives -/

/-- `vm.stack.pop()`: popping an empty JS array yields undefined. -/
def pop (st : VmSt) : VmSt × Value :=
  match st.stack with
  | [] => (st, .undefV)
  | v :: t => ({ st with stack := t }, v)

/-- `vm.stack.push(v)`. -/
def push (st : VmSt) (v : Value) : VmSt :=
  { st with stack := v :: st.stack }

/-- Append a console-device call to the recorded operation list. -/
def consoleOp (st : VmSt) (op : ConsOp) : VmSt :=
  { st with consoleOps := st.consoleOps ++ [op] }

/-- Append an audio-device call. -/
def audioOp (st : VmSt) (op : AudioOp) : VmSt :=
  { st with audioOps := st.audioOps ++ [op] }

/-- Append a host call (setTimeout / requestAnimationFrame). -/
def hostOp (st : VmSt) (op : HostOp) : VmSt :=
  { st with hostOps := st.hostOps ++ [op] }

/-- Property read `v.value`: on a ScalarVariable reference it reads the
cell; on any other object or primitive it is undefined; on null or
undefined it throws a TypeError. -/
def dotValue (st : VmSt) (v : Value) : Except JsErr Value :=
  match v with
  | .ref r =>
    match st.objs.get? r with
    | some (.scalar _ val) => .ok val
    | _ => .ok .undefV
  | .vnull => .error (.other "TypeError")
  | .undefV => .error (.other "TypeError")
  | _ => .ok .undefV

/-- Property write `v.value = newVal`: updates a ScalarVariable cell;
throws a TypeError on null, undefined or a primitive (strict mode);
silently has no observable modelled effect on other objects. -/
def setDotValue (st : VmSt) (v newVal : Value) : VmSt × Option JsErr :=
  match v with
  | .ref r =>
    match st.objs.get? r with
    | some (.scalar t _) => ({ st with objs := st.objs.set r (.scalar t newVal) }, none)
    | _ => (st, none)
  | .vnull => (st, some (.other "TypeError"))
  | .undefV => (st, some (.other "TypeError"))
  | _ => (st, some (.other "TypeError"))

/-- Property read `v.type` of a ScalarVariable or ArrayVariable. -/
def dotType (st : VmSt) (v : Value) : Except JsErr Value :=
  match v with
  | .ref r =>
    match st.objs.get? r with
    | some (.scalar t _) => .ok (.typeV t)
    | some (.arr t _ _) => .ok (.typeV t)
    | _ => .ok .undefV
  | .vnull => .error (.other "TypeError")
  | .undefV => .error (.other "TypeError")
  | _ => .ok .undefV

/-- Pop a value and read its `.value` property (the common pattern
`vm.stack.pop().value`). -/
def popValue (st : VmSt) : VmSt × Except JsErr Value :=
  let (st1, v) := pop st
  (st1, dotValue st1 v)

/-- The canonical zero value of a scalar type.  Modelled from the spec:
Types.ts is not under src/; every scalar type has a canonical zero
(empty string for STRING, numeric zero otherwise). -/
def scalarZero (s : ScalarTypeName) : Value :=
  match s with
  | .STRING => .str ""
  | _ => .num 0

/-- IsNumericType from Types.ts.  Modelled from the spec: the numeric
scalar types are INTEGER, LONG, SINGLE, DOUBLE. -/
def IsNumericType (t : VmType) : Bool :=
  match t with
  | .scalar .STRING => false
  | .scalar _ => true
  | .user _ => false

/-- Allocate the field cells of a fresh user-record instance.  Modelled
from the spec: Types.ts is not under src/; `create_instance` of a record
builds one ScalarVariable per field, at its type's default. -/
def allocFields : VmSt → List (String × ScalarTypeName) → VmSt × List (String × Value)
  | st, [] => (st, [])
  | st, (n, s) :: rest =>
    let r := st.objs.length
    let st1 := { st with objs := st.objs ++ [HObj.scalar (.scalar s) (scalarZero s)] }
    let (st2, vs) := allocFields st1 rest
    (st2, (n, Value.ref r) :: vs)

/-- `type.createInstance()`: the default value of a type.  For a scalar
type this is its canonical zero; for a user type a fresh record object
is allocated.  Modelled from the spec: Types.ts is not under src/. -/
def createInstanceV (st : VmSt) (t : VmType) : VmSt × Value :=
  match t with
  | .scalar s => (st, scalarZero s)
  | .user fields =>
    let (st1, fvs) := allocFields st fields
    ({ st1 with objs := st1.objs ++ [HObj.user fvs] }, .ref st1.objs.length)

/-- Copy the field cells of a record for a deep copy. -/
def copyUserFields : VmSt → List (String × Value) → VmSt × List (String × Value)
  | st, [] => (st, [])
  | st, (n, fv) :: rest =>
    match fv with
    | .ref r =>
      match st.objs.get? r with
      | some (.scalar t val) =>
        let r' := st.objs.length
        let st1 := { st with objs := st.objs ++ [HObj.scalar t val] }
        let (st2, vs) := copyUserFields st1 rest
        (st2, (n, Value.ref r') :: vs)
      | _ =>
        let (st2, vs) := copyUserFields st rest
        (st2, (n, fv) :: vs)
    | _ =>
      let (st2, vs) := copyUserFields st rest
      (st2, (n, fv) :: vs)

/-- `type.copy(v)`.  Modelled from the spec: Types.ts is not under src/;
a scalar copy yields the value itself (numeric widening is the identity
on the exact-rational domain), a record copy is a deep copy. -/
def copyV (st : VmSt) (t : VmType) (v : Value) : VmSt × Value :=
  match t with
  | .scalar _ => (st, v)
  | .user _ =>
    match v with
    | .ref r =>
      match st.objs.get? r with
      | some (.user fvs) =>
        let (st1, fvs') := copyUserFields st fvs
        ({ st1 with objs := st1.objs ++ [HObj.user fvs'] }, .ref st1.objs.length)
      | _ => (st, v)
    | _ => (st, v)

/-! ## Variable resolution (VirtualMachine.getVariable / setVariable) -/

/-- DeriveTypeNameFromVariable from Types.ts.  Modelled from the spec:
the final sigil maps percent to INTEGER, ampersand to LONG, exclamation
mark to SINGLE, hash to DOUBLE, dollar to STRING; a bare identifier
yields null. -/
def DeriveTypeNameFromVariable (name : String) : Option String :=
  match name.data.getLast? with
  | some '%' => some "INTEGER"
  | some '&' => some "LONG"
  | some '!' => some "SINGLE"
  | some '#' => some "DOUBLE"
  | some '$' => some "STRING"
  | _ => none

/-- Frame selection common to getVariable and setVariable: a shared name
resolves to `callstack[0]`, otherwise to the current frame
(`vm.frame`).  The result is `none` when the selected slot is JS
undefined (empty callstack, or an unset current frame). -/
def frameFor (st : VmSt) (name : String) : Option StackFrame :=
  if st.shared.contains name then st.callstack.head? else st.frame

/-- The variables map of a frame. -/
def frameMap (st : VmSt) (fr : StackFrame) : VarMap :=
  st.maps.getD fr.varsRef []

/-- The else-branch of getVariable: create a fresh ScalarVariable of the
sigil-derived type (or the program default), bind it in the frame's map
and return it.  A missing entry in `vm.types` makes the subsequent
`createInstance` call throw a TypeError. -/
def createVar (st : VmSt) (fr : StackFrame) (name : String) : VmSt × Except JsErr Value :=
  let type? : Option VmType :=
    match DeriveTypeNameFromVariable name with
    | none => some st.defaultType
    | some tn => lookupStr st.types tn
  match type? with
  | none => (st, .error (.other "TypeError"))
  | some t =>
    let (st1, init) := createInstanceV st t
    let r := st1.objs.length
    let st2 := { st1 with objs := st1.objs ++ [HObj.scalar t init] }
    let st3 := { st2 with
      maps := st2.maps.set fr.varsRef (setStr (st2.maps.getD fr.varsRef []) name (.ref r)) }
    (st3, .ok (.ref r))

/-- The body of getVariable after frame selection: return the binding if
it is truthy (`if (frame.variables[name])`), otherwise create one; a
JS-undefined frame makes the property access throw a TypeError. -/
def getVariableInFrame (st : VmSt) (fr? : Option StackFrame) (name : String) :
    VmSt × Except JsErr Value :=
  match fr? with
  | none => (st, .error (.other "TypeError"))
  | some fr =>
    match lookupStr (frameMap st fr) name with
    | some v => if jsTruthy v then (st, .ok v) else createVar st fr name
    | none => createVar st fr name

/-- VirtualMachine.getVariable. -/
def getVariable (st : VmSt) (name : String) : VmSt × Except JsErr Value :=
  getVariableInFrame st (frameFor st name) name

/-- The body of setVariable after frame selection. -/
def setVariableInFrame (st : VmSt) (fr? : Option StackFrame) (name : String) (value : Value) :
    VmSt × Option JsErr :=
  match fr? with
  | none => (st, some (.other "TypeError"))
  | some fr =>
    ({ st with maps := st.maps.set fr.varsRef (setStr (st.maps.getD fr.varsRef []) name value) },
     none)

/-- VirtualMachine.setVariable. -/
def setVariable (st : VmSt) (name : String) (value : Value) : VmSt × Option JsErr :=
  setVariableInFrame st (frameFor st name) name value

/-! ## Syscall layer -/

/-- The result type of an action body: the state after all effects, plus
the thrown exception when one escaped. -/
def ActionResult := VmSt × Option JsErr

/-- An entry of the `SystemFunctions` table: declared return type,
argument types, minimum argument count and the action body.  External
inputs are passed explicitly through `Ext`. -/
structure ISystemFunction where
  type : String
  args : List String
  minArgs : Nat
  action : Ext → VmSt → ActionResult

/-- An entry of the `SystemSubroutines` table. -/
structure ISystemSubroutine where
  args : List String
  minArgs : Option Nat
  action : Ext → VmSt → ActionResult

/-- The loop `for (i = 0; i < n; i++) args.unshift(vm.stack.pop())`:
the resulting argument list is the popped prefix reversed (pops past the
bottom of the stack produce undefined entries, as in JS). -/
def popNArgs (st : VmSt) (n : Nat) : VmSt × List Value :=
  ({ st with stack := st.stack.drop n },
   ((List.range n).map (fun i => st.stack.getD i Value.undefV)).reverse)

/-- One char of `String.fromCharCode` from a popped JS value. -/
def jsFromCharCode (v : Value) : String :=
  match v with
  | .num q => String.mk [Char.ofNat (ratToNat q)]
  | _ => String.mk [Char.ofNat 0]

/-- One char of `String.fromCodePoint` / `String.fromCharCode` from a
key-buffer integer. -/
def chrOfInt (i : Int) : String :=
  String.mk [Char.ofNat i.toNat]

/-- JS `str.length` (undefined on non-strings, modelled as such). -/
def jsLen (v : Value) : Value :=
  match v with
  | .str s => .num (s.length : Nat)
  | _ => .undefV

/-- JS `String.prototype.substr (start, length?)` with the negative-start
and clamping rules. -/
def jsSubstr (s : String) (start : Int) (len : Option Int) : String :=
  let n : Int := s.length
  let start' : Nat := (if start < 0 then max (n + start) 0 else min start n).toNat
  let count : Nat :=
    match len with
    | none => s.length - start'
    | some l => (min (max l 0) (n - start')).toNat
  String.mk ((s.data.drop start').take count)

/-- JS `parseFloat` on a coerced string: an exact decimal (optionally
signed) prefix; anything unparsable yields NaN (`nanV`).  Exponents are
not modelled (no claim depends on them). -/
def jsParseFloat (v : Value) : Value :=
  let s := jsToString v
  let neg := s.startsWith "-"
  let body := if neg ∨ s.startsWith "+" then s.drop 1 else s
  let intPart := body.takeWhile Char.isDigit
  let rest := body.drop intPart.length
  let fracPart := if rest.startsWith "." then (rest.drop 1).takeWhile Char.isDigit else ""
  if intPart = "" ∧ fracPart = "" then .nanV
  else
    let ip : Nat := intPart.toNat?.getD 0
    let fp : Nat := fracPart.toNat?.getD 0
    let q : Rat := (ip : Rat) + (fp : Rat) / ((10 : Rat) ^ fracPart.length)
    .num (if neg then -q else q)

/-- SystemFunctions.RND: pops the argument count; with one argument pops
it; pushes the remembered `lastRandomNumber` when the argument is
strictly equal to 0, a fresh `Math.random()` value otherwise.  Note it
never writes `lastRandomNumber`. -/
def fnRND : ISystemFunction :=
  { type := "SINGLE", args := ["INTEGER"], minArgs := 0,
    action := fun ext st =>
      let (st1, numArgs) := pop st
      let (st2, n) :=
        if jsStrictEq numArgs (.num 1) then pop st1 else (st1, Value.num 1)
      if jsStrictEq n (.num 0) then (push st2 (.num st2.lastRandomNumber), none)
      else (push st2 (.num ext.rnd), none) }

/-- SystemFunctions.CHR$. -/
def fnCHR : ISystemFunction :=
  { type := "STRING", args := ["INTEGER"], minArgs := 1,
    action := fun _ st =>
      let (st1, num) := pop st
      (push st1 (.str (jsFromCharCode num)), none) }

/-- SystemFunctions.INKEY$: reads the key buffer; a leading 0 denotes an
escape sequence whose scan code is read next. -/
def fnINKEY : ISystemFunction :=
  { type := "STRING", args := [], minArgs := 0,
    action := fun ext st =>
      let result :=
        if ext.key1 = -1 then ""
        else if ext.key1 = 0 then chrOfInt ext.key1 ++ chrOfInt ext.key2
        else chrOfInt ext.key1
      (push st (.str result), none) }

/-- SystemFunctions.LEN. -/
def fnLEN : ISystemFunction :=
  { type := "INTEGER", args := ["STRING"], minArgs := 1,
    action := fun _ st =>
      let (st1, v) := pop st
      (push st1 (jsLen v), none) }

/-- SystemFunctions.MID$: with three arguments pops the length first,
then start and string; `substr (start - 1, len)`. -/
def fnMID : ISystemFunction :=
  { type := "STRING", args := ["STRING", "INTEGER", "INTEGER"], minArgs := 2,
    action := fun _ st =>
      let (st1, numArgs) := pop st
      let (st2, len?) :=
        if jsStrictEq numArgs (.num 3) then
          let (s, l) := pop st1
          (s, some l)
        else (st1, none)
      let (st3, start) := pop st2
      let (st4, s) := pop st3
      match s, start with
      | .str str, .num q =>
        (push st4 (.str (jsSubstr str (ratTrunc q - 1) (len?.map (fun l => toInt32 l)))), none)
      | _, _ => (push st4 .undefV, none) }

/-- SystemFunctions.LEFT$. -/
def fnLEFT : ISystemFunction :=
  { type := "STRING", args := ["STRING", "INTEGER"], minArgs := 2,
    action := fun _ st =>
      let (st1, num) := pop st
      let (st2, s) := pop st1
      match s with
      | .str str => (push st2 (.str (jsSubstr str 0 (some (toInt32 num)))), none)
      | _ => (push st2 .undefV, none) }

/-- SystemFunctions.RIGHT$. -/
def fnRIGHT : ISystemFunction :=
  { type := "STRING", args := ["STRING", "INTEGER"], minArgs := 2,
    action := fun _ st =>
      let (st1, num) := pop st
      let (st2, s) := pop st1
      match s with
      | .str str => (push st2 (.str (jsSubstr str ((str.length : Int) - toInt32 num) none)), none)
      | _ => (push st2 .undefV, none) }

/-- SystemFunctions.TIMER: seconds since midnight from the external
clock. -/
def fnTIMER : ISystemFunction :=
  { type := "INTEGER", args := [], minArgs := 0,
    action := fun ext st => (push st (.num ext.timerVal), none) }

/-- SystemFunctions.PEEK: pops one argument and pushes 0. -/
def fnPEEK : ISystemFunction :=
  { type := "INTEGER", args := ["INTEGER"], minArgs := 1,
    action := fun _ st =>
      let (st1, _) := pop st
      (push st1 (.num 0), none) }

/-- SystemFunctions.LCASE$. -/
def fnLCASE : ISystemFunction :=
  { type := "STRING", args := ["STRING"], minArgs := 1,
    action := fun _ st =>
      let (st1, s) := pop st
      match s with
      | .str str => (push st1 (.str str.toLower), none)
      | _ => (push st1 .undefV, none) }

/-- SystemFunctions.UCASE$. -/
def fnUCASE : ISystemFunction :=
  { type := "STRING", args := ["STRING"], minArgs := 1,
    action := fun _ st =>
      let (st1, s) := pop st
      match s with
      | .str str => (push st1 (.str str.toUpper), none)
      | _ => (push st1 .undefV, none) }

/-- SystemFunctions.STR$: string coercion of the popped number. -/
def fnSTR : ISystemFunction :=
  { type := "STRING", args := ["SINGLE"], minArgs := 1,
    action := fun _ st =>
      let (st1, num) := pop st
      (push st1 (.str (jsToString num)), none) }

/-- SystemFunctions.SPACE$. -/
def fnSPACE : ISystemFunction :=
  { type := "STRING", args := ["INTEGER"], minArgs := 1,
    action := fun _ st =>
      let (st1, n) := pop st
      (push st1 (.str (String.mk (List.replicate (valToCount n) ' '))), none) }

/-- SystemFunctions.VAL. -/
def fnVAL : ISystemFunction :=
  { type := "SINGLE", args := ["STRING"], minArgs := 1,
    action := fun _ st =>
      let (st1, s) := pop st
      (push st1 (jsParseFloat s), none) }

/-- SystemFunctions.INT: `Math.floor`. -/
def fnINT : ISystemFunction :=
  { type := "INTEGER", args := ["SINGLE"], minArgs := 1,
    action := fun _ st =>
      let (st1, v) := pop st
      match v with
      | .num q => (push st1 (.num ((Rat.floor q : Int) : Rat)), none)
      | _ => (push st1 .nanV, none) }

/-- The `SystemFunctions` table, keyed as in the source. -/
def SystemFunctions : List (String × ISystemFunction) :=
  [("RND", fnRND), ("CHR$", fnCHR), ("INKEY$", fnINKEY), ("LEN", fnLEN),
   ("MID$", fnMID), ("LEFT$", fnLEFT), ("RIGHT$", fnRIGHT), ("TIMER", fnTIMER),
   ("PEEK", fnPEEK), ("LCASE$", fnLCASE), ("UCASE$", fnUCASE), ("STR$", fnSTR),
   ("SPACE$", fnSPACE), ("VAL", fnVAL), ("INT", fnINT)]

/-- VirtualMachine.suspend: set the suspended flag and, in asynchronous
mode, stop the ticker. -/
def suspendVm (st : VmSt) : VmSt :=
  let st1 := { st with suspended := true }
  if st1.asynchronous then { st1 with interval := false } else st1

/-- Error-propagating sequencing for action bodies: stop at a thrown
exception, keeping the state at the throw. -/
def bindValue (r : VmSt × Except JsErr Value) (k : VmSt → Value → ActionResult) : ActionResult :=
  match r with
  | (st, .error e) => (st, some e)
  | (st, .ok v) => k st v

/-- The spaces emitted by `while (++x % 14) spaces += ' '` starting at
cursor column `x0`: pad to the next multiple-of-14 tab stop. -/
def tabSpaces (x0 : Nat) : String :=
  String.mk (List.replicate ((14 - (x0 + 1) % 14) % 14) ' ')

/-- SystemSubroutines.BEEP (not implemented in the source). -/
def subBEEP : ISystemSubroutine :=
  { args := [], minArgs := none, action := fun _ st => (st, none) }

/-- SystemSubroutines.CLS. -/
def subCLS : ISystemSubroutine :=
  { args := [], minArgs := none, action := fun _ st => (consoleOp st .cls, none) }

/-- SystemSubroutines.RANDOMIZE: discards its argument. -/
def subRANDOMIZE : ISystemSubroutine :=
  { args := [], minArgs := none,
    action := fun _ st =>
      let (st1, _) := pop st
      (st1, none) }

/-- SystemSubroutines.PLAY: pops count, music and (with two arguments)
the repeat value; with an audio device attached it suspends the VM and
starts the music (repeat defaulting to 1 through `repeat || 1`). -/
def subPLAY : ISystemSubroutine :=
  { args := ["STRING", "INTEGER"], minArgs := some 1,
    action := fun _ st =>
      let (st1, argCount) := pop st
      bindValue (popValue st1) fun st2 music =>
      if jsGt argCount (.num 1) then
        bindValue (popValue st2) fun st3 repeatV =>
        if st3.hasAudio then
          (audioOp (suspendVm st3) (.playMusic music (if jsTruthy repeatV then repeatV else .num 1)),
           none)
        else (st3, none)
      else
        if st2.hasAudio then
          (audioOp (suspendVm st2) (.playMusic music (.num 1)), none)
        else (st2, none) }

/-- SystemSubroutines.BGMPLAY: like PLAY but does not suspend and passes
the (possibly undefined) repeat through unchanged. -/
def subBGMPLAY : ISystemSubroutine :=
  { args := ["STRING", "INTEGER"], minArgs := some 1,
    action := fun _ st =>
      let (st1, argCount) := pop st
      bindValue (popValue st1) fun st2 music =>
      if jsGt argCount (.num 1) then
        bindValue (popValue st2) fun st3 repeatV =>
        if st3.hasAudio then (audioOp st3 (.playMusic music repeatV), none) else (st3, none)
      else
        if st2.hasAudio then (audioOp st2 (.playMusic music .undefV), none) else (st2, none) }

/-- SystemSubroutines.BGMSTOP. -/
def subBGMSTOP : ISystemSubroutine :=
  { args := [], minArgs := none,
    action := fun _ st =>
      if st.hasAudio then (audioOp st .stopMusic, none) else (st, none) }

/-- SystemSubroutines.SLEEP: pops the argument count, suspends, then
either registers a timeout (one argument) or traps the next key. -/
def subSLEEP : ISystemSubroutine :=
  { args := ["SINGLE"], minArgs := some 0,
    action := fun _ st =>
      let (st1, argCount) := pop st
      let st2 := suspendVm st1
      if jsStrictEq argCount (.num 1) then
        bindValue (popValue st2) fun st3 s => (hostOp st3 (.sleepTimeout s), none)
      else (consoleOp st2 .onKeyTrap, none) }

/-- SystemSubroutines.SYSTEM (not implemented in the source). -/
def subSYSTEM : ISystemSubroutine :=
  { args := [], minArgs := none, action := fun _ st => (st, none) }

/-- A resolved print_using argument: whether its declared type is
numeric, and its value as a string. -/
structure PUArg where
  numericOk : Bool
  valStr : String
  deriving DecidableEq, Repr

/-- Resolve a popped print_using argument (a ScalarVariable reference)
to its numeric flag and stringified value. -/
def resolvePUArg (st : VmSt) (v : Value) : PUArg :=
  match v with
  | .ref r =>
    match st.objs.get? r with
    | some (.scalar t val) => ⟨IsNumericType t, jsToString val⟩
    | _ => ⟨false, ""⟩
  | _ => ⟨false, ""⟩

/-- Scan a `#`/`,` field run: its length and its digit (`#`) count. -/
def fieldScan : List Char → Nat × Nat
  | [] => (0, 0)
  | c :: rest =>
    if c = '#' then
      let (n, d) := fieldScan rest
      (n + 1, d + 1)
    else if c = ',' then
      let (n, d) := fieldScan rest
      (n + 1, d)
    else (0, 0)

/-- Truncate (keeping the rightmost digits) or left-pad with spaces to
exactly `d` characters. -/
def padTruncate (s : String) (d : Nat) : String :=
  if s.length > d then String.mk (s.data.drop (s.length - d))
  else String.mk (List.replicate (d - s.length) ' ') ++ s

/-- Emit a scanned field: each `#` consumes the next digit, each `,` is
copied. -/
def emitField : List Char → Nat → List Char → String
  | _, 0, _ => ""
  | [], _ + 1, _ => ""
  | c :: rest, k + 1, digits =>
    if c = '#' then String.mk [digits.headD ' '] ++ emitField rest k digits.tail
    else String.mk [c] ++ emitField rest k digits

/-- The print_using format scan (the outer `for` over the format
string): verbatim characters are copied; a `#` starts a numeric field,
which aborts the scan when the arguments are exhausted or the current
argument is not numeric.  Fuel-indexed; `|format| + 1` suffices since
every iteration consumes at least one character. -/
def printUsingLoop : Nat → List Char → List PUArg → Nat → String → String
  | 0, _, _, _, out => out
  | _ + 1, [], _, _, out => out
  | fuel + 1, c :: rest, args, curArg, out =>
    if c = '#' then
      match args.get? curArg with
      | none => out
      | some a =>
        if a.numericOk then
          let (runLen, digitCount) := fieldScan (c :: rest)
          let digits := padTruncate a.valStr digitCount
          let out' := out ++ emitField (c :: rest) runLen digits.data
          printUsingLoop fuel ((c :: rest).drop runLen) args (curArg + 1) out'
        else out
    else printUsingLoop fuel rest args curArg (out ++ String.mk [c])

/-- SystemSubroutines.print_using: pops the argument count, the
terminator, then the arguments; the first argument's value is the format
string.  After formatting, a `,` terminator pads to the next 14-column
tab stop, `;` suppresses the newline, anything else emits one. -/
def subPrintUsing : ISystemSubroutine :=
  { args := [], minArgs := none,
    action := fun ext st =>
      let (st1, argCount) := pop st
      let (st2, terminator) := pop st1
      let nIter : Nat :=
        match argCount with
        | .num q => (Int.ceil (q - 1)).toNat
        | _ => 0
      let (st3, args) := popNArgs st2 nIter
      match args with
      | [] => (st3, some (.other "TypeError"))
      | fmtV :: rest =>
        bindValue (st3, dotValue st3 fmtV) fun st4 fmtVal =>
        let fmt : String :=
          match fmtVal with
          | .str s => s
          | _ => ""
        let puArgs := rest.map (resolvePUArg st4)
        let output := printUsingLoop (fmt.length + 1) fmt.data puArgs 0 ""
        let st5 := consoleOp st4 (.print output)
        if jsStrictEq terminator (.str ",") then
          (consoleOp st5 (.print (tabSpaces ext.consX)), none)
        else if jsStrictEq terminator (.str ";") then (st5, none)
        else (consoleOp st5 (.print "\n"), none) }

/-- SystemSubroutines.LOCATE. -/
def subLOCATE : ISystemSubroutine :=
  { args := ["INTEGER", "INTEGER"], minArgs := none,
    action := fun _ st =>
      bindValue (popValue st) fun st1 col =>
      bindValue (popValue st1) fun st2 row =>
      (consoleOp st2 (.locate row col), none) }

/-- SystemSubroutines.COLOR: pops the count, then border and background
when given, then the foreground. -/
def subCOLOR : ISystemSubroutine :=
  { args := ["ANY", "ANY", "ANY"], minArgs := some 1,
    action := fun _ st =>
      let (st1, argCount) := pop st
      if jsGt argCount (.num 2) then
        bindValue (popValue st1) fun st2 bo =>
        bindValue (popValue st2) fun st3 bg =>
        bindValue (popValue st3) fun st4 fg =>
        (consoleOp st4 (.color fg bg bo), none)
      else if jsGt argCount (.num 1) then
        bindValue (popValue st1) fun st2 bg =>
        bindValue (popValue st2) fun st3 fg =>
        (consoleOp st3 (.color fg bg .vnull), none)
      else
        bindValue (popValue st1) fun st2 fg =>
        (consoleOp st2 (.color fg .vnull .vnull), none) }

/-- One iteration of the READ loop: `args[i].value = data[dataPtr++]`,
then, when the stored value is null (a `DATA ,,` entry), replace it with
the variable's type default. -/
def readStep (st : VmSt) (r : Value) : VmSt × Option JsErr :=
  let v := st.data.getD st.dataPtr Value.undefV
  let st1 := { st with dataPtr := st.dataPtr + 1 }
  match setDotValue st1 r v with
  | (st2, some e) => (st2, some e)
  | (st2, none) =>
    match dotValue st2 r with
    | .error e => (st2, some e)
    | .ok cur =>
      if jsStrictEq cur .vnull then
        match dotType st2 r with
        | .error e => (st2, some e)
        | .ok (.typeV t) =>
          let (st3, defv) := createInstanceV st2 t
          setDotValue st3 r defv
        | .ok _ => (st2, some (.other "TypeError"))
      else (st2, none)

/-- The READ loop over the collected argument references. -/
def readLoop : VmSt → List Value → VmSt × Option JsErr
  | st, [] => (st, none)
  | st, r :: rest =>
    match readStep st r with
    | (st1, none) => readLoop st1 rest
    | (st1, some e) => (st1, some e)

/-- SystemSubroutines.READ: pops the argument count and that many
variable references (restoring source order), then fills each from the
DATA pool. -/
def subREAD : ISystemSubroutine :=
  { args := ["ANY", "ANY"], minArgs := some 1,
    action := fun _ st =>
      let (st1, argCount) := pop st
      let (st2, args) := popNArgs st1 (valToCount argCount)
      readLoop st2 args }

/-- SystemSubroutines.SCREEN. -/
def subSCREEN : ISystemSubroutine :=
  { args := [], minArgs := none,
    action := fun _ st =>
      bindValue (popValue st) fun st1 mode =>
      (consoleOp st1 (.screen mode), none) }

/-- SystemSubroutines.INPUT: pops the count and the argument references,
suspends the VM and requests a line from the console (the completion
callback that stores the result and resumes runs outside the dispatch
loop and is not part of this step). -/
def subINPUT : ISystemSubroutine :=
  { args := [], minArgs := none,
    action := fun _ st =>
      let (st1, argCount) := pop st
      let (st2, _args) := popNArgs st1 (valToCount argCount)
      (consoleOp (suspendVm st2) .inputReq, none) }

/-- SystemSubroutines.SWAP. -/
def subSWAP : ISystemSubroutine :=
  { args := [], minArgs := none,
    action := fun _ st =>
      let (st1, lhs) := pop st
      let (st2, rhs) := pop st1
      bindValue (st2, dotValue st2 lhs) fun st3 temp =>
      bindValue (st3, dotValue st3 rhs) fun st4 rv =>
      match setDotValue st4 lhs rv with
      | (st5, some e) => (st5, some e)
      | (st5, none) => setDotValue st5 rhs temp }

/-- SystemSubroutines.WIDTH (not implemented; pops two values). -/
def subWIDTH : ISystemSubroutine :=
  { args := [], minArgs := none,
    action := fun _ st =>
      let (st1, _) := pop st
      let (st2, _) := pop st1
      (st2, none) }

/-- SystemSubroutines.YIELD: suspend for one animation frame. -/
def subYIELD : ISystemSubroutine :=
  { args := [], minArgs := none,
    action := fun _ st => (hostOp (suspendVm st) .animationFrame, none) }

/-- SystemSubroutines.SPSET: suspends first, then pops count, optional
frame count, image and sprite number, and creates the sprite. -/
def subSPSET : ISystemSubroutine :=
  { args := ["INTEGER", "ANY"], minArgs := some 2,
    action := fun _ st =>
      let st0 := suspendVm st
      let (st1, argCount) := pop st0
      if jsGt argCount (.num 2) then
        bindValue (popValue st1) fun st2 frames =>
        bindValue (popValue st2) fun st3 image =>
        bindValue (popValue st3) fun st4 n =>
        (consoleOp st4 (.createSprite n image frames), none)
      else
        bindValue (popValue st1) fun st2 image =>
        bindValue (popValue st2) fun st3 n =>
        (consoleOp st3 (.createSprite n image (.num 1)), none) }

/-- SystemSubroutines.SPOFS. -/
def subSPOFS : ISystemSubroutine :=
  { args := ["INTEGER", "INTEGER", "INTEGER"], minArgs := none,
    action := fun _ st =>
      bindValue (popValue st) fun st1 y =>
      bindValue (popValue st1) fun st2 x =>
      bindValue (popValue st2) fun st3 n =>
      (consoleOp st3 (.offsetSprite n x y), none) }

/-- SystemSubroutines.SPSCALE. -/
def subSPSCALE : ISystemSubroutine :=
  { args := ["INTEGER", "INTEGER", "INTEGER"], minArgs := none,
    action := fun _ st =>
      bindValue (popValue st) fun st1 sy =>
      bindValue (popValue st1) fun st2 sx =>
      bindValue (popValue st2) fun st3 n =>
      (consoleOp st3 (.scaleSprite n sx sy), none) }

/-- SystemSubroutines.SPROT. -/
def subSPROT : ISystemSubroutine :=
  { args := ["INTEGER", "INTEGER"], minArgs := none,
    action := fun _ st =>
      bindValue (popValue st) fun st1 angle =>
      bindValue (popValue st1) fun st2 n =>
      (consoleOp st2 (.rotateSprite n angle), none) }

/-- SystemSubroutines.SPHOME. -/
def subSPHOME : ISystemSubroutine :=
  { args := ["INTEGER", "INTEGER", "INTEGER"], minArgs := none,
    action := fun _ st =>
      bindValue (popValue st) fun st1 hy =>
      bindValue (popValue st1) fun st2 hx =>
      bindValue (popValue st2) fun st3 n =>
      (consoleOp st3 (.homeSprite n hx hy), none) }

/-- SystemSubroutines.SPHIDE. -/
def subSPHIDE : ISystemSubroutine :=
  { args := ["INTEGER"], minArgs := none,
    action := fun _ st =>
      bindValue (popValue st) fun st1 n =>
      (consoleOp st1 (.displaySprite n false), none) }

/-- SystemSubroutines.SPSHOW. -/
def subSPSHOW : ISystemSubroutine :=
  { args := ["INTEGER"], minArgs := none,
    action := fun _ st =>
      bindValue (popValue st) fun st1 n =>
      (consoleOp st1 (.displaySprite n true), none) }

/-- SystemSubroutines.SPANIM: pops count, optional loop flag (strict
comparison against -1), then stop frame, start frame and sprite
number. -/
def subSPANIM : ISystemSubroutine :=
  { args := ["INTEGER", "INTEGER", "INTEGER", "INTEGER"], minArgs := some 3,
    action := fun _ st =>
      let (st1, argCount) := pop st
      if jsGt argCount (.num 3) then
        bindValue (popValue st1) fun st2 loopV =>
        bindValue (popValue st2) fun st3 stopF =>
        bindValue (popValue st3) fun st4 startF =>
        bindValue (popValue st4) fun st5 n =>
        (consoleOp st5 (.animateSprite n startF stopF (jsStrictEq loopV (.num (-1)))), none)
      else
        bindValue (popValue st1) fun st2 stopF =>
        bindValue (popValue st2) fun st3 startF =>
        bindValue (popValue st3) fun st4 n =>
        (consoleOp st4 (.animateSprite n startF stopF true), none) }

/-- SystemSubroutines.SPCLR. -/
def subSPCLR : ISystemSubroutine :=
  { args := ["INTEGER"], minArgs := none,
    action := fun _ st =>
      bindValue (popValue st) fun st1 n =>
      (consoleOp st1 (.clearSprite n), none) }

/-- The `SystemSubroutines` table, keyed as in the source. -/
def SystemSubroutines : List (String × ISystemSubroutine) :=
  [("BEEP", subBEEP), ("CLS", subCLS), ("RANDOMIZE", subRANDOMIZE),
   ("PLAY", subPLAY), ("BGMPLAY", subBGMPLAY), ("BGMSTOP", subBGMSTOP),
   ("SLEEP", subSLEEP), ("SYSTEM", subSYSTEM), ("print_using", subPrintUsing),
   ("LOCATE", subLOCATE), ("COLOR", subCOLOR), ("READ", subREAD),
   ("SCREEN", subSCREEN), ("INPUT", subINPUT), ("SWAP", subSWAP),
   ("WIDTH", subWIDTH), ("YIELD", subYIELD), ("SPSET", subSPSET),
   ("SPOFS", subSPOFS), ("SPSCALE", subSPSCALE), ("SPROT", subSPROT),
   ("SPHOME", subSPHOME), ("SPHIDE", subSPHIDE), ("SPSHOW", subSPSHOW),
   ("SPANIM", subSPANIM), ("SPCLR", subSPCLR)]

/-! ## Instruction set -/

/-- The address argument of an addrLabel instruction. -/
def IArg.toNat : IArg → Nat
  | .num q => ratToNat q
  | _ => 0

/-- The string argument of a name-carrying instruction. -/
def IArg.toStr : IArg → String
  | .str s => s
  | _ => ""

/-- The instruction argument as a stack value (for `pushconst`). -/
def IArg.toValue : IArg → Value
  | .num q => .num q
  | .str s => .str s
  | .noArg => .undefV

/-- JS truthiness of an instruction argument (for `array_deref`). -/
def IArg.truthy : IArg → Bool
  | .num q => decide (q ≠ 0)
  | .str s => decide (s ≠ "")
  | .noArg => false

/-- The type of an instruction's execute function: external inputs, the
instruction argument, and the machine state, to the state after all
effects plus the escaped exception when one was thrown. -/
def ExecFn := Ext → IArg → VmSt → VmSt × Option JsErr

/-- An entry of the `Instructions` dispatch table (`IInstruction`). -/
structure IInstruction where
  name : String
  addrLabel : Bool := false
  dataLabel : Bool := false
  numArgs : Nat := 1
  execute : ExecFn

/-- Instructions.FORLOOP: inspect (top: counter, next: step, next: end);
when the loop is over pop all three and jump to the end address,
otherwise pop only the counter. -/
def FORLOOP : IInstruction :=
  { name := "forloop", addrLabel := true,
    execute := fun _ arg st =>
      let counter := st.stack.getD 0 .undefV
      let step := st.stack.getD 1 .undefV
      let end_ := st.stack.getD 2 .undefV
      if (jsLt step (.num 0) && jsLt counter end_) || (jsGt step (.num 0) && jsGt counter end_)
      then ({ st with stack := st.stack.drop 3, pc := arg.toNat }, none)
      else ((pop st).1, none) }

/-- Instructions.COPYTOP. -/
def COPYTOP : IInstruction :=
  { name := "copytop", numArgs := 0,
    execute := fun _ _ st => (push st (st.stack.getD 0 .undefV), none) }

/-- Instructions.RESTORE: set the data pointer to the argument. -/
def RESTORE : IInstruction :=
  { name := "restore", dataLabel := true,
    execute := fun _ arg st => ({ st with dataPtr := arg.toNat }, none) }

/-- Instructions.POPVAL: assign the popped value into the named
variable's cell. -/
def POPVAL : IInstruction :=
  { name := "popval",
    execute := fun _ arg st =>
      match getVariable st arg.toStr with
      | (st1, .error e) => (st1, some e)
      | (st1, .ok v) =>
        let (st2, val) := pop st1
        setDotValue st2 v val }

/-- Instructions.POP. -/
def POP : IInstruction :=
  { name := "pop", numArgs := 0,
    execute := fun _ _ st => ((pop st).1, none) }

/-- Instructions.PUSHREF. -/
def PUSHREF : IInstruction :=
  { name := "pushref",
    execute := fun _ arg st =>
      match getVariable st arg.toStr with
      | (st1, .error e) => (st1, some e)
      | (st1, .ok v) => (push st1 v, none) }

/-- Instructions.PUSHVALUE. -/
def PUSHVALUE : IInstruction :=
  { name := "pushvalue",
    execute := fun _ arg st =>
      match getVariable st arg.toStr with
      | (st1, .error e) => (st1, some e)
      | (st1, .ok v) =>
        match dotValue st1 v with
        | .error e => (st1, some e)
        | .ok val => (push st1 val, none) }

/-- Instructions.PUSHTYPE. -/
def PUSHTYPE : IInstruction :=
  { name := "pushtype",
    execute := fun _ arg st =>
      match lookupStr st.types arg.toStr with
      | some t => (push st (.typeV t), none)
      | none => (push st .undefV, none) }

/-- Instructions.POPVAR: rebind the name to the popped value. -/
def POPVAR : IInstruction :=
  { name := "popvar",
    execute := fun _ arg st =>
      let (st1, v) := pop st
      setVariable st1 arg.toStr v }

/-- Instructions.NEW: wrap the popped value in a fresh ScalarVariable of
the named type (through the type's copy). -/
def NEW : IInstruction :=
  { name := "new",
    execute := fun _ arg st =>
      match lookupStr st.types arg.toStr with
      | none => (st, some (.other "TypeError"))
      | some t =>
        let (st1, v) := pop st
        let (st2, copied) := copyV st1 t v
        (push { st2 with objs := st2.objs ++ [HObj.scalar t copied] } (.ref st2.objs.length),
         none) }

/-- Instructions.END: jump the pc past the end of the program. -/
def END : IInstruction :=
  { name := "end", numArgs := 0,
    execute := fun _ _ st => ({ st with pc := st.instrCount }, none) }

/-- Instructions.UNARY_OP: only `NOT` is implemented; any other operator
pushes undefined. -/
def UNARY_OP : IInstruction :=
  { name := "unary_op",
    execute := fun _ arg st =>
      let (st1, rhs) := pop st
      if arg = IArg.str "NOT" then (push st1 (jsNot rhs), none)
      else (push st1 .undefV, none) }

/-- Instructions `=`: strict equality of the two popped values, pushing
-1 or 0. -/
def OP_EQ : IInstruction :=
  { name := "=", numArgs := 0,
    execute := fun _ _ st =>
      let (st1, a) := pop st
      let (st2, b) := pop st1
      (push st2 (if jsStrictEq a b then .num (-1) else .num 0), none) }

/-- Instructions `<`. -/
def OP_LT : IInstruction :=
  { name := "<", numArgs := 0,
    execute := fun _ _ st =>
      let (st1, rhs) := pop st
      let (st2, lhs) := pop st1
      (push st2 (if jsLt lhs rhs then .num (-1) else .num 0), none) }

/-- Instructions `<=`. -/
def OP_LE : IInstruction :=
  { name := "<=", numArgs := 0,
    execute := fun _ _ st =>
      let (st1, rhs) := pop st
      let (st2, lhs) := pop st1
      (push st2 (if jsLe lhs rhs then .num (-1) else .num 0), none) }

/-- Instructions `>`. -/
def OP_GT : IInstruction :=
  { name := ">", numArgs := 0,
    execute := fun _ _ st =>
      let (st1, rhs) := pop st
      let (st2, lhs) := pop st1
      (push st2 (if jsGt lhs rhs then .num (-1) else .num 0), none) }

/-- Instructions `>=`. -/
def OP_GE : IInstruction :=
  { name := ">=", numArgs := 0,
    execute := fun _ _ st =>
      let (st1, rhs) := pop st
      let (st2, lhs) := pop st1
      (push st2 (if jsGe lhs rhs then .num (-1) else .num 0), none) }

/-- Instructions `<>`. -/
def OP_NE : IInstruction :=
  { name := "<>", numArgs := 0,
    execute := fun _ _ st =>
      let (st1, a) := pop st
      let (st2, b) := pop st1
      (push st2 (if jsStrictEq a b then .num 0 else .num (-1)), none) }

/-- Instructions.AND (bitwise through ToInt32). -/
def AND : IInstruction :=
  { name := "and", numArgs := 0,
    execute := fun _ _ st =>
      let (st1, a) := pop st
      let (st2, b) := pop st1
      (push st2 (jsAnd a b), none) }

/-- Instructions.OR (bitwise through ToInt32). -/
def OR : IInstruction :=
  { name := "or", numArgs := 0,
    execute := fun _ _ st =>
      let (st1, a) := pop st
      let (st2, b) := pop st1
      (push st2 (jsOrB a b), none) }

/-- Instructions `+`. -/
def OP_ADD : IInstruction :=
  { name := "+", numArgs := 0,
    execute := fun _ _ st =>
      let (st1, rhs) := pop st
      let (st2, lhs) := pop st1
      (push st2 (jsAdd lhs rhs), none) }

/-- Instructions `-`. -/
def OP_SUB : IInstruction :=
  { name := "-", numArgs := 0,
    execute := fun _ _ st =>
      let (st1, rhs) := pop st
      let (st2, lhs) := pop st1
      (push st2 (jsSub lhs rhs), none) }

/-- Instructions `*`. -/
def OP_MUL : IInstruction :=
  { name := "*", numArgs := 0,
    execute := fun _ _ st =>
      let (st1, a) := pop st
      let (st2, b) := pop st1
      (push st2 (jsMul a b), none) }

/-- Instructions `/`: pops the divisor first and throws
DIVISION_BY_ZERO when it is strictly equal to 0; otherwise pops the
dividend and pushes the quotient. -/
def OP_DIV : IInstruction :=
  { name := "/", numArgs := 0,
    execute := fun _ _ st =>
      let (st1, rhs) := pop st
      if jsStrictEq rhs (.num 0) then
        (st1, some (.rt ⟨RuntimeErrorCodes.DIVISION_BY_ZERO, "Division by zero", none⟩))
      else
        let (st2, lhs) := pop st1
        (push st2 (jsDiv lhs rhs), none) }

/-- Instructions.MOD: same zero-divisor trap; pushes the remainder. -/
def OP_MOD : IInstruction :=
  { name := "mod", numArgs := 0,
    execute := fun _ _ st =>
      let (st1, rhs) := pop st
      if jsStrictEq rhs (.num 0) then
        (st1, some (.rt ⟨RuntimeErrorCodes.DIVISION_BY_ZERO, "Division by zero", none⟩))
      else
        let (st2, lhs) := pop st1
        (push st2 (jsRem lhs rhs), none) }

/-- Instructions.BZ: branch when the popped value is falsy. -/
def BZ : IInstruction :=
  { name := "bz", addrLabel := true,
    execute := fun _ arg st =>
      let (st1, expr) := pop st
      if jsTruthy expr then (st1, none) else ({ st1 with pc := arg.toNat }, none) }

/-- Instructions.BNZ: branch when the popped value is truthy. -/
def BNZ : IInstruction :=
  { name := "bnz", addrLabel := true,
    execute := fun _ arg st =>
      let (st1, expr) := pop st
      if jsTruthy expr then ({ st1 with pc := arg.toNat }, none) else (st1, none) }

/-- Instructions.JMP. -/
def JMP : IInstruction :=
  { name := "jmp", addrLabel := true,
    execute := fun _ arg st => ({ st with pc := arg.toNat }, none) }

/-- Instructions.CALL: push a fresh frame (return pc = current pc, fresh
empty variables map) and jump. -/
def CALL : IInstruction :=
  { name := "call", addrLabel := true,
    execute := fun _ arg st =>
      let newFrame : StackFrame := ⟨st.pc, st.maps.length⟩
      ({ st with
          maps := st.maps ++ [[]],
          frame := some newFrame,
          callstack := st.callstack ++ [newFrame],
          pc := arg.toNat }, none) }

/-- Instructions.GOSUB: like call, but the new frame shares the current
frame's variables map by reference. -/
def GOSUB : IInstruction :=
  { name := "gosub", addrLabel := true,
    execute := fun _ arg st =>
      match st.frame with
      | none => (st, some (.other "TypeError"))
      | some f =>
        let newFrame : StackFrame := ⟨st.pc, f.varsRef⟩
        ({ st with
            frame := some newFrame,
            callstack := st.callstack ++ [newFrame],
            pc := arg.toNat }, none) }

/-- Instructions.RET: pop the top frame, restore its return pc and make
the new top frame current; an empty call stack throws STACK_UNDERFLOW. -/
def RET : IInstruction :=
  { name := "ret", numArgs := 0,
    execute := fun _ _ st =>
      match st.callstack.getLast? with
      | none => (st, some (.rt ⟨RuntimeErrorCodes.STACK_UNDERFLOW, "Stack underflow", none⟩))
      | some top =>
        let cs := st.callstack.dropLast
        ({ st with callstack := cs, pc := top.pc, frame := cs.getLast? }, none) }

/-- Instructions.PUSHCONST. -/
def PUSHCONST : IInstruction :=
  { name := "pushconst",
    execute := fun _ arg st => (push st arg.toValue, none) }

/-- Lower bound of a dimension (from its lower-bound value). -/
def dimLower (d : Value × Value) : Int :=
  match d.1 with
  | .num q => ratTrunc q
  | _ => 0

/-- Size (upper − lower + 1) of a dimension. -/
def dimSize (d : Value × Value) : Int :=
  (match d.2 with
   | .num q => ratTrunc q
   | _ => 0) - dimLower d + 1

/-- Row-major offset of an index vector.  Modelled from the spec:
ArrayVariable.access in Types.ts is not under src/; access by index
vector computes the row-major offset after shifting each index by its
dimension's lower bound. -/
def rowMajorOffset : List (Value × Value) → List Value → Int
  | [], _ => 0
  | d :: ds, idx =>
    let i : Int :=
      match idx.headD .undefV with
      | .num q => ratTrunc q
      | _ => 0
    (i - dimLower d) * (ds.foldl (fun acc d' => acc * dimSize d') 1) + rowMajorOffset ds idx.tail

/-- Pop one index per dimension, failing with STACK_UNDERFLOW when the
operand stack runs dry; the list is rebuilt in left-to-right order. -/
def popIndexes : VmSt → Nat → VmSt × Except JsErr (List Value)
  | st, 0 => (st, .ok [])
  | st, k + 1 =>
    match st.stack with
    | [] => (st, .error (.rt ⟨RuntimeErrorCodes.STACK_UNDERFLOW, "Stack underflow", none⟩))
    | v :: rest =>
      let (st', res) := popIndexes { st with stack := rest } k
      (st', res.map (fun l => l ++ [v]))

/-- Instructions.ARRAY_DEREF: pop the array reference and one index per
dimension; push the cell reference (truthy argument) or its value. -/
def ARRAY_DEREF : IInstruction :=
  { name := "array_deref", numArgs := 1,
    execute := fun _ arg st =>
      let (st1, arrV) := pop st
      match arrV with
      | .ref r =>
        match st1.objs.get? r with
        | some (.arr _ dims cells) =>
          match popIndexes st1 dims.length with
          | (st2, .error e) => (st2, some e)
          | (st2, .ok indexes) =>
            let cell := cells.getD (rowMajorOffset dims indexes).toNat .undefV
            if arg.truthy then (push st2 cell, none)
            else
              match dotValue st2 cell with
              | .error e => (st2, some e)
              | .ok val => (push st2 val, none)
        | _ => (st1, some (.other "TypeError"))
      | _ => (st1, some (.other "TypeError")) }

/-- Instructions.MEMBER_DEREF: push the named field of the popped
user-record variable. -/
def MEMBER_DEREF : IInstruction :=
  { name := "member_deref",
    execute := fun _ arg st =>
      let (st1, userVariable) := pop st
      match userVariable with
      | .ref r =>
        match st1.objs.get? r with
        | some (.user fs) => (push st1 ((lookupStr fs arg.toStr).getD .undefV), none)
        | _ => (push st1 .undefV, none)
      | .vnull => (st1, some (.other "TypeError"))
      | .undefV => (st1, some (.other "TypeError"))
      | _ => (push st1 .undefV, none) }

/-- Instructions.MEMBER_VALUE: push the value of the named field of the
popped user-record variable. -/
def MEMBER_VALUE : IInstruction :=
  { name := "member_value",
    execute := fun _ arg st =>
      let (st1, userVariable) := pop st
      match userVariable with
      | .ref r =>
        match st1.objs.get? r with
        | some (.user fs) =>
          let deref := (lookupStr fs arg.toStr).getD .undefV
          match dotValue st1 deref with
          | .error e => (st1, some e)
          | .ok val => (push st1 val, none)
        | _ => (st1, some (.other "TypeError"))
      | .vnull => (st1, some (.other "TypeError"))
      | .undefV => (st1, some (.other "TypeError"))
      | _ => (st1, some (.other "TypeError")) }

/-- Instructions.ASSIGN: copy the popped value into the popped variable
reference through the reference's type. -/
def ASSIGN : IInstruction :=
  { name := "assign", numArgs := 0,
    execute := fun _ _ st =>
      let (st1, lhs) := pop st
      let (st2, rhs) := pop st1
      match dotType st2 lhs with
      | .error e => (st2, some e)
      | .ok (.typeV t) =>
        let (st3, copied) := copyV st2 t rhs
        setDotValue st3 lhs copied
      | .ok _ => (st2, some (.other "TypeError")) }

/-- Inline `print` case of the syscall dispatch: pop one value and print
its string coercion. -/
def sysPrint (st : VmSt) : ActionResult :=
  let (st1, what) := pop st
  (consoleOp st1 (.print (jsToString what)), none)

/-- Pop the dimension bound pairs of `alloc_array` (upper first, then
lower, unshifted so earlier pops end last). -/
def popDims : VmSt → Nat → VmSt × List (Value × Value)
  | st, 0 => (st, [])
  | st, k + 1 =>
    let (st1, upper) := pop st
    let (st2, lower) := pop st1
    let (st3, ds) := popDims st2 k
    (st3, ds ++ [(lower, upper)])

/-- Allocate `n` fresh default-valued ScalarVariable cells of type `t`
for an array's backing store. -/
def allocArrayCells (st : VmSt) (t : VmType) : Nat → VmSt × List Value
  | 0 => (st, [])
  | n + 1 =>
    let (st1, init) := createInstanceV st t
    let r := st1.objs.length
    let st2 := { st1 with objs := st1.objs ++ [HObj.scalar t init] }
    let (st3, cells) := allocArrayCells st2 t n
    (st3, Value.ref r :: cells)

/-- Inline `alloc_array` case: pop the element type, the dimension count
and the bounds, and push a fresh ArrayVariable.  The backing store is
modelled from the spec (Types.ts is not under src/): one default cell
per element. -/
def sysAllocArray (st : VmSt) : ActionResult :=
  let (st1, type_) := pop st
  let (st2, numDim) := pop st1
  let (st3, dims) := popDims st2 (valToCount numDim)
  match type_ with
  | .typeV t =>
    let n := (dims.foldl (fun acc d => acc * dimSize d) 1).toNat
    let (st4, cells) := allocArrayCells st3 t n
    (push { st4 with objs := st4.objs ++ [HObj.arr t dims cells] } (.ref st4.objs.length), none)
  | _ => (st3, some (.other "TypeError"))

/-- Inline `print_comma` case: pad to the next 14-column tab stop. -/
def sysPrintComma (ext : Ext) (st : VmSt) : ActionResult :=
  (consoleOp st (.print (tabSpaces ext.consX)), none)

/-- Inline `print_tab` case: pop the column and pad up to it. -/
def sysPrintTab (ext : Ext) (st : VmSt) : ActionResult :=
  let (st1, c) := pop st
  let count : Nat :=
    match jsSub c (.num 1) with
    | .num q => ((Int.ceil q) - ext.consX - 1).toNat
    | _ => 0
  (consoleOp st1 (.print (String.mk (List.replicate count ' '))), none)

/-- Inline `alloc_scalar` case: pop the type and push a fresh
default-valued ScalarVariable. -/
def sysAllocScalar (st : VmSt) : ActionResult :=
  let (st1, type_) := pop st
  match type_ with
  | .typeV t =>
    let (st2, init) := createInstanceV st1 t
    (push { st2 with objs := st2.objs ++ [HObj.scalar t init] } (.ref st2.objs.length), none)
  | _ => (st1, some (.other "TypeError"))

/-- The syscall dispatch over a string name: the five inline cases, then
`SystemFunctions`, then `SystemSubroutines`, otherwise throw
UKNOWN_SYSCALL (301). -/
def syscallRun (ext : Ext) (a : String) (st : VmSt) : ActionResult :=
  if a = "print" then sysPrint st
  else if a = "alloc_array" then sysAllocArray st
  else if a = "print_comma" then sysPrintComma ext st
  else if a = "print_tab" then sysPrintTab ext st
  else if a = "alloc_scalar" then sysAllocScalar st
  else
    match lookupStr SystemFunctions a with
    | some f => f.action ext st
    | none =>
      match lookupStr SystemSubroutines a with
      | some s => s.action ext st
      | none => (st, some (.rt ⟨RuntimeErrorCodes.UKNOWN_SYSCALL, "Unknown syscall: " ++ a, none⟩))

/-- Instructions.SYSCALL. -/
def SYSCALL : IInstruction :=
  { name := "syscall",
    execute := fun ext arg st =>
      match arg with
      | .str a => syscallRun ext a st
      | _ =>
        (st, some (.rt ⟨RuntimeErrorCodes.UKNOWN_SYSCALL,
                        "Unknown syscall: " ++ jsToString arg.toValue, none⟩)) }

/-- The `Instructions` dispatch table, keyed as in the source. -/
def Instructions : List (String × IInstruction) :=
  [("FORLOOP", FORLOOP), ("COPYTOP", COPYTOP), ("RESTORE", RESTORE),
   ("POPVAL", POPVAL), ("POP", POP), ("PUSHREF", PUSHREF), ("PUSHVALUE", PUSHVALUE),
   ("PUSHTYPE", PUSHTYPE), ("POPVAR", POPVAR), ("NEW", NEW), ("END", END),
   ("UNARY_OP", UNARY_OP), ("=", OP_EQ), ("<", OP_LT), ("<=", OP_LE),
   (">", OP_GT), (">=", OP_GE), ("<>", OP_NE), ("AND", AND), ("OR", OR),
   ("+", OP_ADD), ("-", OP_SUB), ("*", OP_MUL), ("/", OP_DIV), ("MOD", OP_MOD),
   ("BZ", BZ), ("BNZ", BNZ), ("JMP", JMP), ("CALL", CALL), ("GOSUB", GOSUB),
   ("RET", RET), ("PUSHCONST", PUSHCONST), ("ARRAY_DEREF", ARRAY_DEREF),
   ("MEMBER_DEREF", MEMBER_DEREF), ("MEMBER_VALUE", MEMBER_VALUE),
   ("ASSIGN", ASSIGN), ("SYSCALL", SYSCALL)]

/-! ## Dispatch loop and execution modes -/

/-- A compiled instruction record as produced by the code generator
(`Instruction`): the dispatch-table entry, the (linked) argument and the
source locus. -/
structure ProgInstr where
  instr : IInstruction
  arg : IArg
  locus : Locus

/-- VirtualMachine.runOneInstruction: fetch `instructions[pc++]`, run
its execute function, and catch any thrown value; a `RuntimeError` is
rethrown decorated with the instruction's locus, anything else is
silently discarded.  A pc past the end fetches undefined, whose property
access throws a TypeError that the same catch discards. -/
def runOneInstruction (prog : List ProgInstr) (ext : Ext) (st : VmSt) :
    VmSt × Option RuntimeError :=
  match prog.get? st.pc with
  | none => ({ st with pc := st.pc + 1 }, none)
  | some pi =>
    let st1 := { st with pc := st.pc + 1 }
    match pi.instr.execute ext pi.arg st1 with
    | (st2, none) => (st2, none)
    | (st2, some (.rt e)) => (st2, some ⟨e.code, e.message, some pi.locus⟩)
    | (st2, some (.other _)) => (st2, none)

/-- Emit an `error` event. -/
def emitError (st : VmSt) (e : RuntimeError) : VmSt :=
  { st with events := st.events ++ [e] }

/-- The `for` loop inside runSome: up to `instructionsPerInterval`
instructions while the pc is in range and the VM is not suspended; a
thrown RuntimeError stops the loop and is handed to the catch.  One
external-input record is consumed per instruction. -/
def runSomeQuantum (prog : List ProgInstr) : List Ext → Nat → VmSt → VmSt × Option RuntimeError
  | _, 0, st => (st, none)
  | exts, k + 1, st =>
    if st.pc < prog.length ∧ st.suspended = false then
      match runOneInstruction prog (exts.headD extZero) st with
      | (st', none) => runSomeQuantum prog exts.tail k st'
      | (st', some e) => (st', some e)
    else (st, none)

/-- VirtualMachine.runSome (the asynchronous tick): run a quantum; on a
caught error suspend the VM and emit the `error` event; finally stop the
ticker when the program has ended. -/
def runSome (prog : List ProgInstr) (exts : List Ext) (st : VmSt) : VmSt :=
  let (st1, err?) := runSomeQuantum prog exts st.instructionsPerInterval st
  let st2 :=
    match err? with
    | none => st1
    | some e => emitError (suspendVm st1) e
  if st2.pc = prog.length then { st2 with interval := false } else st2

/-- The synchronous branch of VirtualMachine.run: a `while (pc <
instructions.length)` loop over runOneInstruction inside one try/catch;
a caught error is emitted as an `error` event and ends the loop (without
suspending).  The loop is fuel-indexed because a program need not
terminate; the claims below only use the fuel needed to reach the
behaviour under test. -/
def runSyncLoop (prog : List ProgInstr) : Nat → List Ext → VmSt → VmSt
  | 0, _, st => st
  | fuel + 1, exts, st =>
    if st.pc < prog.length then
      match runOneInstruction prog (exts.headD extZero) st with
      | (st', none) => runSyncLoop prog fuel exts.tail st'
      | (st', some e) => emitError st' e
    else st

/-- VirtualMachine.reset: reinstall the program's tables, drain the
stacks, push a fresh main frame whose return pc is the instruction
count, reset the data pointer, clear suspension, stop the ticker and
reset the console.  Does not touch `lastRandomNumber`. -/
def resetVm (st : VmSt) (instrCount : Nat) (types : List (String × VmType))
    (defaultType : VmType) (data : List Value) (shared : List String) : VmSt :=
  let mainFrame : StackFrame := ⟨instrCount, st.maps.length⟩
  { st with
      instrCount := instrCount,
      types := types,
      defaultType := defaultType,
      data := data,
      shared := shared,
      stack := [],
      maps := st.maps ++ [[]],
      callstack := [mainFrame],
      frame := some mainFrame,
      dataPtr := 0,
      suspended := false,
      interval := false,
      pc := 0,
      consoleOps := st.consoleOps ++ [.cls] }

/-! ## The GLR parser's parse loop (error path)

The GLR graph operations (reduceAll / shift over the stack tops) belong
to the parser's state machinery; the claims below concern only the parse
loop's control flow and error reporting, so those operations are
abstracted into `GlrHooks` while the loop structure, the token pull and
the error accumulation follow GlrParser.js line by line. -/

/-- A token as handed to the parser: symbol id, matched text, locus, and
whether it is the distinguished EOF token. -/
structure Token where
  id : String
  text : String
  locus : Locus
  isEOF : Bool
  deriving DecidableEq, Repr

/-- The GLR graph operations of the parse loop, abstracted over the
representation `α` of the set of stack tops. -/
structure GlrHooks (α : Type) where
  reduceAllTops : α → Token → α
  shiftTops : α → Token → Option α
  expectedLines : α → List String

/-- The parser state threaded through the loop: the accumulated error
list, the stack tops, and the tokenizer restart position. -/
structure ParseState (α : Type) where
  errors : List String
  tops : α
  line : Nat
  position : Nat

/-- The error message the parser records when the tokenizer returns a
null token: `sprintf('Bad character at at %s:%s', line + 1, position +
1)` (the doubled `at` is verbatim from the source). -/
def badCharMessage (line position : Nat) : String :=
  "Bad character at at " ++ toString (line + 1) ++ ":" ++ toString (position + 1)

/-- The message shape the specification describes for the same event,
written from the spec's words for comparison with `badCharMessage`. -/
def specBadCharMessage (line position : Nat) : String :=
  "Bad character at " ++ toString (line + 1) ++ ":" ++ toString (position + 1)

/-- The syntax-error message for a stuck state.  The token and locus
renderings live in Tokenizer.ts, which is not under src/; modelled from
the spec as `Syntax error at L:C`. -/
def syntaxErrorMessage (t : Token) : String :=
  "Syntax error at " ++ toString (t.locus.line) ++ ":" ++ toString (t.locus.position) ++
    ": " ++ t.text

/-- GlrParser.parse's main loop: pull a token at the current restart
position; a null token records the bad-character error and terminates at
once; otherwise reduce, shift, handle EOF, handle a stuck state (no next
tops), or continue after the token.  `tok` is the restartable tokenizer
(`nextToken(line, position)`); the fuel only bounds the number of loop
iterations. -/
def parseLoop {α : Type} (hooks : GlrHooks α) (tok : Nat → Nat → Option Token) :
    Nat → ParseState α → ParseState α
  | 0, ps => ps
  | fuel + 1, ps =>
    match tok ps.line ps.position with
    | none => { ps with errors := ps.errors ++ [badCharMessage ps.line ps.position] }
    | some token =>
      let tops1 := hooks.reduceAllTops ps.tops token
      let next? := hooks.shiftTops tops1 token
      if token.isEOF then
        { ps with tops := hooks.reduceAllTops tops1 token }
      else
        match next? with
        | none =>
          { ps with
              errors := ps.errors ++
                [syntaxErrorMessage token, "Expected one of the following:"] ++
                hooks.expectedLines tops1 }
        | some tops2 =>
          parseLoop hooks tok fuel
            { errors := ps.errors, tops := tops2,
              line := token.locus.line,
              position := token.locus.position + token.text.length }

/-- A host-supplied instruction whose execute function throws a plain
(non-RuntimeError) JS exception, for exercising the dispatch catch. -/
def badInstr : IInstruction :=
  { name := "boom", numArgs := 0,
    execute := fun _ _ st => (st, some (.other "boom")) }

/-- States reachable from `st` by dispatch steps of `runOneInstruction`
under arbitrary external inputs. -/
inductive ReachableFrom (prog : List ProgInstr) : VmSt → VmSt → Prop where
  | refl (st : VmSt) : ReachableFrom prog st st
  | step (st st1 st2 : VmSt) (ext : Ext) (r : Option RuntimeError) :
      ReachableFrom prog st st1 →
      runOneInstruction prog ext st1 = (st2, r) →
      ReachableFrom prog st st2

/-! ## Concrete states for witnesses -/

/-- A quiescent machine state with the built-in scalar types installed,
used to instantiate theorems at concrete inputs. -/
def baseSt : VmSt :=
  { stack := [], pc := 0, callstack := [], frame := none, instrCount := 0,
    types := [("INTEGER", .scalar .INTEGER), ("LONG", .scalar .LONG),
              ("SINGLE", .scalar .SINGLE), ("DOUBLE", .scalar .DOUBLE),
              ("STRING", .scalar .STRING)],
    shared := [], dataPtr := 0, data := [], asynchronous := false, suspended := false,
    interval := false, instructionsPerInterval := 2048, lastRandomNumber := 0,
    defaultType := .scalar .SINGLE, objs := [], maps := [], events := [],
    consoleOps := [], audioOps := [], hostOps := [], hasAudio := false }

/-! ## Claim C2: the forloop instruction -/

/-- C2: with the operand stack holding counter on top, then step, then
the end value, `forloop` pops all three and jumps to its address
argument exactly when (step > 0 and counter > end) or (step < 0 and
counter < end); otherwise it pops only the counter, leaves step and end
in place, and does not alter the pc. -/
theorem C2_forloop (c s e : Rat) (rest : List Value) (st : VmSt) (a : Rat) (ext : Ext)
    (hstack : st.stack = Value.num c :: Value.num s :: Value.num e :: rest) :
    (((s > 0 ∧ c > e) ∨ (s < 0 ∧ c < e)) →
      FORLOOP.execute ext (.num a) st = ({ st with stack := rest, pc := ratToNat a }, none)) ∧
    (¬ ((s > 0 ∧ c > e) ∨ (s < 0 ∧ c < e)) →
      FORLOOP.execute ext (.num a) st =
        ({ st with stack := Value.num s :: Value.num e :: rest }, none)) := by
  constructor
  · intro h
    have hcond : (jsLt (Value.num s) (.num 0) && jsLt (Value.num c) (Value.num e) ||
        (jsGt (Value.num s) (.num 0) && jsGt (Value.num c) (Value.num e))) = true := by
      rcases h with ⟨h1, h2⟩ | ⟨h1, h2⟩ <;> simp [jsLt, jsGt, h1, h2]
    simp only [FORLOOP, hstack, List.getD_cons_zero, List.getD_cons_succ]
    rw [hcond]
    simp [IArg.toNat]
  · intro h
    have hcond : (jsLt (Value.num s) (.num 0) && jsLt (Value.num c) (Value.num e) ||
        (jsGt (Value.num s) (.num 0) && jsGt (Value.num c) (Value.num e))) = false := by
      push_neg at h
      simp only [jsLt, jsGt, Bool.or_eq_false_iff, Bool.and_eq_false_iff,
        decide_eq_false_iff_not]
      constructor
      · by_cases hs : s < 0
        · exact Or.inr (not_lt.mpr (h.2 hs))
        · exact Or.inl hs
      · by_cases hs : 0 < s
        · exact Or.inr (not_lt.mpr (h.1 hs))
        · exact Or.inl hs
    simp only [FORLOOP, hstack, List.getD_cons_zero, List.getD_cons_succ]
    rw [hcond]
    simp [pop, hstack]

/-- Witness for C2 at a concrete terminating loop: counter 5, step 1,
end 3, jump target 7. -/
theorem C2_forloop_witness :
    FORLOOP.execute extZero (.num 7) { baseSt with stack := [.num 5, .num 1, .num 3] } =
      ({ baseSt with stack := [], pc := ratToNat 7 }, none) :=
  (C2_forloop 5 1 3 [] { baseSt with stack := [.num 5, .num 1, .num 3] } 7 extZero rfl).1
    (Or.inl ⟨by norm_num, by norm_num⟩)

/-! ## Claim C5: division and MOD trap exactly the zero divisor -/

/-- C5: with numeric operands (divisor on top), `/` and `MOD` throw a
RuntimeError with code DIVISION_BY_ZERO (101) exactly when the popped
divisor equals zero (the dividend then remains on the stack at the
throw); with a nonzero divisor both operands are popped and the quotient
(resp. remainder) is pushed. -/
theorem C5_div_mod (a b : Rat) (rest : List Value) (st : VmSt) (ext : Ext) (arg : IArg)
    (hstack : st.stack = Value.num b :: Value.num a :: rest) :
    (b = 0 →
      OP_DIV.execute ext arg st =
        ({ st with stack := Value.num a :: rest },
         some (.rt ⟨RuntimeErrorCodes.DIVISION_BY_ZERO, "Division by zero", none⟩)) ∧
      OP_MOD.execute ext arg st =
        ({ st with stack := Value.num a :: rest },
         some (.rt ⟨RuntimeErrorCodes.DIVISION_BY_ZERO, "Division by zero", none⟩))) ∧
    (b ≠ 0 →
      OP_DIV.execute ext arg st = ({ st with stack := Value.num (a / b) :: rest }, none) ∧
      OP_MOD.execute ext arg st =
        ({ st with stack := Value.num (a - b * ratTrunc (a / b)) :: rest }, none)) := by
  constructor
  · intro hb
    subst hb
    constructor <;> simp [OP_DIV, OP_MOD, ExecFn, hstack, pop, jsStrictEq]
  · intro hb
    constructor <;>
      simp [OP_DIV, OP_MOD, ExecFn, hstack, pop, jsStrictEq, hb, jsDiv, jsRem, push]

/-- Witness for C5: `10 / 0` traps with code 101, `10 / 4` pushes the
quotient. -/
theorem C5_div_mod_witness :
    (OP_DIV.execute extZero .noArg { baseSt with stack := [.num 0, .num 10] } =
      ({ baseSt with stack := [Value.num 10] },
       some (.rt ⟨RuntimeErrorCodes.DIVISION_BY_ZERO, "Division by zero", none⟩))) ∧
    (OP_DIV.execute extZero .noArg { baseSt with stack := [.num 4, .num 10] } =
      ({ baseSt with stack := [Value.num (10 / 4)] }, none)) :=
  ⟨((C5_div_mod 10 0 [] { baseSt with stack := [.num 0, .num 10] } extZero .noArg rfl).1
      rfl).1,
   ((C5_div_mod 10 4 [] { baseSt with stack := [.num 4, .num 10] } extZero .noArg rfl).2
      (by norm_num)).1⟩

/-! ## Claim C6: RET -/

/-- C6: on a non-empty call stack, `ret` pops the top frame, restores
its return pc and makes the new top of the call stack the current frame;
on an empty call stack it throws STACK_UNDERFLOW (202) and leaves the
state unchanged. -/
theorem C6_ret (st : VmSt) (ext : Ext) (arg : IArg) :
    (st.callstack = [] →
      RET.execute ext arg st =
        (st, some (.rt ⟨RuntimeErrorCodes.STACK_UNDERFLOW, "Stack underflow", none⟩))) ∧
    (∀ cs top, st.callstack = cs ++ [top] →
      RET.execute ext arg st =
        ({ st with callstack := cs, pc := top.pc, frame := cs.getLast? }, none)) := by
  constructor
  · intro h
    simp [RET, ExecFn, h]
  · intro cs top h
    simp [RET, ExecFn, h, List.getLast?_concat, List.dropLast_concat]

/-- Witness for C6: popping the only frame restores its pc and leaves an
undefined current frame; RET on an empty call stack underflows. -/
theorem C6_ret_witness :
    (RET.execute extZero .noArg { baseSt with callstack := [⟨9, 0⟩] } =
      ({ baseSt with callstack := [], pc := 9, frame := (List.getLast? []) }, none)) ∧
    (RET.execute extZero .noArg baseSt =
      (baseSt, some (.rt ⟨RuntimeErrorCodes.STACK_UNDERFLOW, "Stack underflow", none⟩))) :=
  ⟨(C6_ret { baseSt with callstack := [⟨9, 0⟩] } extZero .noArg).2 [] ⟨9, 0⟩ rfl,
   (C6_ret baseSt extZero .noArg).1 rfl⟩

/-! ## List helper lemmas shared by several claims -/

/-- Looking up a key right after setting it yields the new value. -/
theorem lookupStr_setStr_self {α : Type} (m : List (String × α)) (k : String) (v : α) :
    lookupStr (setStr m k v) k = some v := by
  induction m with
  | nil => simp [setStr, lookupStr]
  | cons hd tl ih =>
    by_cases h : hd.1 = k
    · simp [setStr, lookupStr, h]
    · simp [setStr, lookupStr, h, ih]

/-- `getD` at the index of a `set` inside bounds yields the new value. -/
theorem getD_set_self {α : Type} :
    ∀ (l : List α) (i : Nat) (x d : α), i < l.length → (l.set i x).getD i d = x
  | [], i, _, _, h => absurd h (by simp)
  | _ :: _, 0, _, _, _ => rfl
  | _ :: l, i + 1, x, d, h => getD_set_self l i x d (by simpa using h)

/-- `getD` just past the end of a one-element append. -/
theorem getD_append_length {α : Type} :
    ∀ (l : List α) (x d : α), (l ++ [x]).getD l.length d = x
  | [], _, _ => rfl
  | _ :: l, x, d => getD_append_length l x d

/-- `get?` at the index of a `set` inside bounds yields the new value. -/
theorem get?_set_self {α : Type} :
    ∀ (l : List α) (i : Nat) (x : α), i < l.length → (l.set i x).get? i = some x
  | [], i, _, h => absurd h (by simp)
  | _ :: _, 0, _, _ => rfl
  | _ :: l, i + 1, x, h => get?_set_self l i x (by simpa using h)

/-- `get?` away from the index of a `set` is unchanged. -/
theorem get?_set_ne {α : Type} :
    ∀ (l : List α) (i j : Nat) (x : α), i ≠ j → (l.set i x).get? j = l.get? j
  | [], _, _, _, _ => rfl
  | _ :: _, 0, 0, _, h => absurd rfl h
  | _ :: _, 0, _ + 1, _, _ => rfl
  | _ :: _, _ + 1, 0, _, _ => rfl
  | _ :: l, i + 1, j + 1, x, h => get?_set_ne l i j x (fun hh => h (by omega))

/-- Flooring a natural cast into `Rat` is the identity. -/
theorem ratFloor_natCast (n : Nat) : Rat.floor ((n : Nat) : Rat) = n := by
  have h1 : (n : Int) ≤ Rat.floor ((n : Nat) : Rat) :=
    Rat.le_floor.mpr (by exact_mod_cast le_refl ((n : Nat) : Rat))
  have h2 : Rat.floor ((n : Nat) : Rat) ≤ (n : Int) := by
    have h := Rat.le_floor.mp (le_refl (Rat.floor ((n : Nat) : Rat)))
    exact_mod_cast h
  omega

/-- Casting a natural through `Rat` and flooring back is the identity. -/
theorem ratToNat_natCast (n : Nat) : ratToNat (n : Rat) = n := by
  simp [ratToNat, ratFloor_natCast]

/-- The JS loop count of a popped natural count value. -/
theorem valToCount_natCast (n : Nat) : valToCount (.num (n : Rat)) = n := by
  simp [valToCount, Int.ceil_natCast]

/-! ## Claim C3: CALL and GOSUB frames -/

/-- C3: `call` pushes a frame whose return pc is the current pc and
whose variables map is fresh (a new heap slot, distinct from every
frame's) and empty, then jumps; `gosub` pushes a frame whose variables
map is the very same map object as the caller's (equal `varsRef`), so a
binding made in the gosub frame is visible in the caller and the map
reference is preserved across the matching `ret`. -/
theorem C3_call_gosub (st : VmSt) (ext : Ext) (a : Rat) (f : StackFrame) (n : String) (v : Value)
    (hframe : st.frame = some f)
    (htop : st.callstack.getLast? = some f)
    (hwfF : f.varsRef < st.maps.length)
    (hwf : ∀ fr ∈ st.callstack, fr.varsRef < st.maps.length)
    (hshared : st.shared.contains n = false) :
    (CALL.execute ext (.num a) st =
      ({ st with maps := st.maps ++ [[]],
                 frame := some ⟨st.pc, st.maps.length⟩,
                 callstack := st.callstack ++ [⟨st.pc, st.maps.length⟩],
                 pc := ratToNat a }, none)) ∧
    ((st.maps ++ [[]]).getD st.maps.length [] = []) ∧
    (∀ fr ∈ st.callstack, fr.varsRef ≠ st.maps.length) ∧
    (GOSUB.execute ext (.num a) st =
      ({ st with frame := some ⟨st.pc, f.varsRef⟩,
                 callstack := st.callstack ++ [⟨st.pc, f.varsRef⟩],
                 pc := ratToNat a }, none)) ∧
    (let st1 := (GOSUB.execute ext (.num a) st).1
     let set1 := setVariable st1 n v
     let ret1 := RET.execute ext .noArg set1.1
     set1.2 = none ∧
     ret1.2 = none ∧
     ret1.1.frame = some f ∧
     ret1.1.pc = st.pc ∧
     ret1.1.callstack = st.callstack ∧
     lookupStr (frameMap ret1.1 f) n = some v) := by
  refine ⟨?_, ?_, ?_, ?_, ?_⟩
  · simp [CALL, IArg.toNat]
  · exact getD_append_length _ _ _
  · intro fr hfr
    exact Nat.ne_of_lt (hwf fr hfr)
  · simp [GOSUB, hframe, IArg.toNat]
  · have hG : GOSUB.execute ext (.num a) st =
        ({ st with frame := some ⟨st.pc, f.varsRef⟩,
                   callstack := st.callstack ++ [⟨st.pc, f.varsRef⟩],
                   pc := (IArg.num a).toNat }, none) := by
      simp [GOSUB, hframe]
    have hS : setVariable
        ({ st with frame := some ⟨st.pc, f.varsRef⟩,
                   callstack := st.callstack ++ [⟨st.pc, f.varsRef⟩],
                   pc := (IArg.num a).toNat }) n v =
        ({ st with frame := some ⟨st.pc, f.varsRef⟩,
                   callstack := st.callstack ++ [⟨st.pc, f.varsRef⟩],
                   pc := (IArg.num a).toNat,
                   maps := st.maps.set f.varsRef (setStr (st.maps.getD f.varsRef []) n v) },
         none) := by
      have hmem : n ∉ st.shared := by simpa using hshared
      simp [setVariable, frameFor, hmem, setVariableInFrame]
    have hR : RET.execute ext .noArg
        ({ st with frame := some ⟨st.pc, f.varsRef⟩,
                   callstack := st.callstack ++ [⟨st.pc, f.varsRef⟩],
                   pc := (IArg.num a).toNat,
                   maps := st.maps.set f.varsRef (setStr (st.maps.getD f.varsRef []) n v) }) =
        ({ st with frame := st.callstack.getLast?,
                   callstack := st.callstack,
                   pc := st.pc,
                   maps := st.maps.set f.varsRef (setStr (st.maps.getD f.varsRef []) n v) },
         none) := by
      simp [RET, List.getLast?_concat, List.dropLast_concat]
    simp only [hG, hS, hR]
    have hset := getD_set_self st.maps f.varsRef
      (setStr (st.maps.getD f.varsRef []) n v) [] hwfF
    have hset' : (st.maps.set f.varsRef
        (setStr (st.maps[f.varsRef]?.getD []) n v))[f.varsRef]?.getD ([] : VarMap) =
        setStr (st.maps[f.varsRef]?.getD []) n v := by
      simpa [List.getD_eq_getElem?_getD] using hset
    simp [htop, frameMap, hset', lookupStr_setStr_self]

/-- Witness for C3: a main frame at map 0, gosub to address 7 binding X
to 42, return to pc 5. -/
theorem C3_call_gosub_witness :
    (CALL.execute extZero (.num 7)
        { baseSt with callstack := [⟨99, 0⟩], frame := some ⟨99, 0⟩, maps := [[]], pc := 5 } =
      ({ baseSt with callstack := [⟨99, 0⟩, ⟨5, 1⟩], frame := some ⟨5, 1⟩,
                     maps := [[], []], pc := ratToNat 7 }, none)) ∧
    (([([] : VarMap)] ++ [[]]).getD 1 [] = []) ∧
    (∀ fr ∈ [(⟨99, 0⟩ : StackFrame)], fr.varsRef ≠ 1) ∧
    (GOSUB.execute extZero (.num 7)
        { baseSt with callstack := [⟨99, 0⟩], frame := some ⟨99, 0⟩, maps := [[]], pc := 5 } =
      ({ baseSt with callstack := [⟨99, 0⟩, ⟨5, 0⟩], frame := some ⟨5, 0⟩,
                     maps := [[]], pc := ratToNat 7 }, none)) ∧
    (let st1 := (GOSUB.execute extZero (.num 7)
        { baseSt with callstack := [⟨99, 0⟩], frame := some ⟨99, 0⟩, maps := [[]], pc := 5 }).1
     let set1 := setVariable st1 "X" (.num 42)
     let ret1 := RET.execute extZero .noArg set1.1
     set1.2 = none ∧
     ret1.2 = none ∧
     ret1.1.frame = some ⟨99, 0⟩ ∧
     ret1.1.pc = 5 ∧
     ret1.1.callstack = [⟨99, 0⟩] ∧
     lookupStr (frameMap ret1.1 ⟨99, 0⟩) "X" = some (.num 42)) :=
  C3_call_gosub
    { baseSt with callstack := [⟨99, 0⟩], frame := some ⟨99, 0⟩, maps := [[]], pc := 5 }
    extZero 7 ⟨99, 0⟩ "X" (.num 42) rfl rfl (by decide)
    (by intro fr hfr; simp at hfr; simp [hfr]) rfl

/-! ## Claim C4: variable resolution -/

/-- C4: a name in the shared set resolves (for reads and writes) to the
main frame `callstack[0]`, so every current frame observes the very same
binding; a name not in the shared set resolves in the current frame; and
a name unbound in the resolved frame makes getVariable create and bind a
fresh ScalarVariable whose type comes from the name's sigil, or the
program default type when there is no sigil. -/
theorem C4_variable_resolution (st : VmSt) (n : String) (v : Value) :
    (n ∈ st.shared →
      getVariable st n = getVariableInFrame st st.callstack.head? n ∧
      setVariable st n v = setVariableInFrame st st.callstack.head? n v ∧
      (∀ f1 : Option StackFrame, ∀ mainFr w,
        st.callstack.head? = some mainFr →
        lookupStr (frameMap st mainFr) n = some w →
        jsTruthy w = true →
        getVariable { st with frame := f1 } n = ({ st with frame := f1 }, .ok w))) ∧
    (n ∉ st.shared →
      getVariable st n = getVariableInFrame st st.frame n ∧
      setVariable st n v = setVariableInFrame st st.frame n v) ∧
    (∀ fr s, frameFor st n = some fr →
      lookupStr (frameMap st fr) n = none →
      (match DeriveTypeNameFromVariable n with
       | none => some st.defaultType
       | some tn => lookupStr st.types tn) = some (VmType.scalar s) →
      getVariable st n =
        ({ st with objs := st.objs ++ [HObj.scalar (.scalar s) (scalarZero s)],
                   maps := st.maps.set fr.varsRef
                     (setStr (frameMap st fr) n (.ref st.objs.length)) },
         .ok (.ref st.objs.length))) := by
  refine ⟨?_, ?_, ?_⟩
  · intro hmem
    refine ⟨by simp [getVariable, frameFor, hmem], by simp [setVariable, frameFor, hmem], ?_⟩
    intro f1 mainFr w hhead hlook ht
    simp only [frameMap] at hlook
    have hlook' : lookupStr (st.maps[mainFr.varsRef]?.getD []) n = some w := by
      simpa [List.getD_eq_getElem?_getD] using hlook
    simp [getVariable, frameFor, hmem, getVariableInFrame, hhead, frameMap, hlook', ht]
  · intro hmem
    exact ⟨by simp [getVariable, frameFor, hmem], by simp [setVariable, frameFor, hmem]⟩
  · intro fr s hfr hlook hty
    simp only [frameMap] at hlook
    simp only [getVariable, hfr, getVariableInFrame, frameMap, hlook]
    simp only [createVar, hty, createInstanceV]

/-- Witness for C4 at the creation case: reading the unbound name `A%`
in an empty main frame allocates an INTEGER ScalarVariable at heap slot
0 and binds it. -/
theorem C4_variable_resolution_witness :
    getVariable { baseSt with callstack := [⟨0, 0⟩], frame := some ⟨0, 0⟩, maps := [[]] } "A%" =
      ({ baseSt with callstack := [⟨0, 0⟩], frame := some ⟨0, 0⟩,
                     objs := [HObj.scalar (.scalar .INTEGER) (.num 0)],
                     maps := [[("A%", Value.ref 0)]] },
       .ok (.ref 0)) :=
  (C4_variable_resolution
      { baseSt with callstack := [⟨0, 0⟩], frame := some ⟨0, 0⟩, maps := [[]] }
      "A%" .undefV).2.2 ⟨0, 0⟩ .INTEGER (by decide) (by decide) (by decide)

/-! ## Claim C7: restore and the READ syscall -/

/-- One READ step on a valid scalar-variable reference: the next DATA
entry is stored (a null entry is replaced by the type default) and the
data pointer advances. -/
theorem readStep_scalar (st : VmSt) (r : Nat) (t0 : ScalarTypeName) (v0 : Value)
    (h : st.objs.get? r = some (.scalar (.scalar t0) v0)) :
    readStep st (.ref r) =
      ({ st with dataPtr := st.dataPtr + 1,
                 objs := st.objs.set r (.scalar (.scalar t0)
                   (if st.data.getD st.dataPtr .undefV = .vnull then scalarZero t0
                    else st.data.getD st.dataPtr .undefV)) }, none) := by
  have hr : r < st.objs.length := by
    have := List.get?_eq_some.mp h
    exact this.1
  by_cases hnull : st.data.getD st.dataPtr .undefV = .vnull
  · have hget : (st.objs.set r (HObj.scalar (.scalar t0) Value.vnull)).get? r =
        some (HObj.scalar (.scalar t0) Value.vnull) :=
      get?_set_self _ _ _ (by simpa using hr)
    simp only [readStep, hnull, setDotValue, h, dotValue, hget, jsStrictEq, dotType,
      createInstanceV]
    simp [List.set_set, hnull]
  · have hget : (st.objs.set r (HObj.scalar (.scalar t0)
        (st.data.getD st.dataPtr .undefV))).get? r =
        some (HObj.scalar (.scalar t0) (st.data.getD st.dataPtr .undefV)) :=
      get?_set_self _ _ _ (by simpa using hr)
    have hne : jsStrictEq (st.data.getD st.dataPtr Value.undefV) Value.vnull = false := by
      cases hd : st.data.getD st.dataPtr Value.undefV <;> simp_all [jsStrictEq]
    simp only [readStep, setDotValue, h, dotValue, hget, hne]
    have hnull' : ¬ st.data[st.dataPtr]?.getD Value.undefV = Value.vnull := by
      simpa [List.getD_eq_getElem?_getD] using hnull
    simp [hnull']

/-- The READ loop over distinct valid scalar references: no error, the
data pointer advances by the argument count, the stack and maps are
untouched, unrelated heap slots are untouched, and the i-th variable
receives the i-th DATA entry (type default for a null entry). -/
theorem readLoop_scalars : ∀ (refs : List Nat) (st : VmSt),
    (∀ r ∈ refs, ∃ t0 v0, st.objs.get? r = some (HObj.scalar (.scalar t0) v0)) →
    refs.Nodup →
    ∃ st', readLoop st (refs.map Value.ref) = (st', none) ∧
      st'.dataPtr = st.dataPtr + refs.length ∧
      st'.stack = st.stack ∧ st'.maps = st.maps ∧ st'.pc = st.pc ∧
      st'.events = st.events ∧
      (∀ r, r ∉ refs → st'.objs.get? r = st.objs.get? r) ∧
      (∀ i, ∀ hi : i < refs.length, ∀ t0 v0,
        st.objs.get? (refs.get ⟨i, hi⟩) = some (HObj.scalar (.scalar t0) v0) →
        st'.objs.get? (refs.get ⟨i, hi⟩) =
          some (HObj.scalar (.scalar t0)
            (if st.data.getD (st.dataPtr + i) .undefV = .vnull then scalarZero t0
             else st.data.getD (st.dataPtr + i) .undefV)))
  | [], st, _, _ => ⟨st, rfl, by simp, rfl, rfl, rfl, rfl, fun _ _ => rfl, fun i hi => by
      simp at hi⟩
  | r :: rest, st, hvalid, hnodup => by
    obtain ⟨t0, v0, hr⟩ := hvalid r (by simp)
    have hstep := readStep_scalar st r t0 v0 hr
    have hrmem : r ∉ rest := (List.nodup_cons.mp hnodup).1
    have hvalid1 : ∀ r' ∈ rest, ∃ t0' v0',
        ({ st with
            dataPtr := st.dataPtr + 1,
            objs := st.objs.set r (HObj.scalar (.scalar t0)
              (if st.data.getD st.dataPtr .undefV = .vnull then scalarZero t0
               else st.data.getD st.dataPtr .undefV)) } : VmSt).objs.get? r' =
        some (HObj.scalar (.scalar t0') v0') := by
      intro r' hr'
      obtain ⟨t0', v0', h'⟩ := hvalid r' (by simp [hr'])
      have hne : r ≠ r' := fun he => hrmem (he ▸ hr')
      refine ⟨t0', v0', ?_⟩
      show (st.objs.set r (HObj.scalar (.scalar t0)
          (if st.data.getD st.dataPtr .undefV = .vnull then scalarZero t0
           else st.data.getD st.dataPtr .undefV))).get? r' =
        some (HObj.scalar (.scalar t0') v0')
      rw [get?_set_ne st.objs r r' _ hne]
      exact h'
    obtain ⟨st', hloop, hdp, hstk, hmaps, hpc, hev, hunch, hobj⟩ :=
      readLoop_scalars rest _ hvalid1 (List.nodup_cons.mp hnodup).2
    refine ⟨st', ?_, ?_, ?_, ?_, ?_, ?_, ?_, ?_⟩
    · simp only [List.map_cons, readLoop, hstep, hloop]
    · rw [hdp]
      simp only [List.length_cons]
      omega
    · rw [hstk]
    · rw [hmaps]
    · rw [hpc]
    · rw [hev]
    · intro r' hr'
      have h1 : r' ∉ rest := fun hh => hr' (by simp [hh])
      have h2 : r ≠ r' := fun he => hr' (by simp [he])
      rw [hunch r' h1]
      simpa using get?_set_ne st.objs r r' _ h2
    · intro i hi t0' v0' hgi
      cases i with
      | zero =>
        simp only [List.get] at hgi ⊢
        have hr0 : r < st.objs.length := (List.get?_eq_some.mp hr).1
        have hu : st'.objs.get? r = _ := hunch r hrmem
        rw [hu]
        have hv : t0' = t0 ∧ v0' = v0 := by
          rw [hr] at hgi
          have h1 := Option.some.inj hgi
          cases h1
          exact ⟨rfl, rfl⟩
        obtain ⟨h1, _⟩ := hv
        subst h1
        simpa using get?_set_self st.objs r _ (by simpa using hr0)
      | succ j =>
        have hj : j < rest.length := by simpa using hi
        have hgetEq : (r :: rest).get ⟨j + 1, hi⟩ = rest.get ⟨j, hj⟩ := rfl
        rw [hgetEq] at hgi ⊢
        have hne : r ≠ rest.get ⟨j, hj⟩ := fun he => hrmem (he ▸ rest.get_mem j hj)
        have h1 : ({ st with
              dataPtr := st.dataPtr + 1,
              objs := st.objs.set r (HObj.scalar (.scalar t0)
                (if st.data.getD st.dataPtr .undefV = .vnull then scalarZero t0
                 else st.data.getD st.dataPtr .undefV)) } : VmSt).objs.get?
              (rest.get ⟨j, hj⟩) =
            st.objs.get? (rest.get ⟨j, hj⟩) := by
          simpa using get?_set_ne st.objs r _ _ hne
        have h2 := hobj j hj t0' v0' (by rw [h1]; exact hgi)
        rw [h2]
        have hidx : st.dataPtr + 1 + j = st.dataPtr + (j + 1) := by omega
        simp [hidx]

/-- Reading the first `|A|` positions of `A ++ rest` recovers `A`. -/
theorem rangeMap_getD_append {α : Type} (A rest : List α) (d : α) :
    (List.range A.length).map (fun i => (A ++ rest).getD i d) = A := by
  apply List.ext_getElem
  · simp
  · intro i h1 h2
    simp only [List.getElem_map, List.getElem_range, List.getD_eq_getElem?_getD]
    rw [List.getElem?_append_left (by simpa using h2), List.getElem?_eq_getElem h2]
    rfl

/-- C7: `restore k` sets the data pointer to `k`; the READ syscall, with
`n` distinct scalar-variable argument references below the popped count,
stores `data[p+i]` into the i-th argument (in source order), replacing a
null entry by the variable type's default, leaves unrelated heap slots
and the rest of the stack alone, and ends with `data_ptr = p + n`. -/
theorem C7_restore_read (st : VmSt) (ext : Ext) (k : Nat) (refs : List Nat) (rest : List Value)
    (hstack : st.stack =
      Value.num (refs.length : Rat) :: ((refs.map Value.ref).reverse ++ rest))
    (hvalid : ∀ r ∈ refs, ∃ t0 v0, st.objs.get? r = some (HObj.scalar (.scalar t0) v0))
    (hnodup : refs.Nodup) :
    (RESTORE.execute ext (.num (k : Rat)) st = ({ st with dataPtr := k }, none)) ∧
    (subREAD.action ext st).2 = none ∧
    (subREAD.action ext st).1.dataPtr = st.dataPtr + refs.length ∧
    (subREAD.action ext st).1.stack = rest ∧
    (subREAD.action ext st).1.maps = st.maps ∧
    (∀ r, r ∉ refs → (subREAD.action ext st).1.objs.get? r = st.objs.get? r) ∧
    (∀ i, ∀ hi : i < refs.length, ∀ t0 v0,
      st.objs.get? (refs.get ⟨i, hi⟩) = some (HObj.scalar (.scalar t0) v0) →
      (subREAD.action ext st).1.objs.get? (refs.get ⟨i, hi⟩) =
        some (HObj.scalar (.scalar t0)
          (if st.data.getD (st.dataPtr + i) .undefV = .vnull then scalarZero t0
           else st.data.getD (st.dataPtr + i) .undefV))) := by
  have hn : valToCount (Value.num (refs.length : Rat)) = refs.length := valToCount_natCast _
  have hlenA : (refs.map Value.ref).reverse.length = refs.length := by simp
  have hdrop : (((refs.map Value.ref).reverse ++ rest).drop refs.length) = rest := by
    rw [← hlenA]
    exact List.drop_left _ _
  have hargs : ((List.range refs.length).map
      (fun i => ((refs.map Value.ref).reverse ++ rest).getD i Value.undefV)).reverse =
      refs.map Value.ref := by
    conv =>
      lhs
      rw [← hlenA]
    rw [rangeMap_getD_append]
    exact List.reverse_reverse _
  obtain ⟨st', hloop, hdp, hstk, hmaps, _, _, hunch, hobj⟩ :=
    readLoop_scalars refs ({ st with stack := rest }) (by simpa using hvalid) hnodup
  have haction : subREAD.action ext st = (st', none) := by
    simp only [subREAD, pop, hstack, hn, popNArgs]
    rw [hdrop, hargs] at *
    simpa using hloop
  refine ⟨by simp [RESTORE, IArg.toNat, ratToNat_natCast], ?_, ?_, ?_, ?_, ?_, ?_⟩
  · rw [haction]
  · rw [haction]
    simpa using hdp
  · rw [haction]
    simpa using hstk
  · rw [haction]
    simpa using hmaps
  · intro r hr
    rw [haction]
    simpa using hunch r hr
  · intro i hi t0 v0 hg
    rw [haction]
    simpa using hobj i hi t0 v0 (by simpa using hg)

/-- Witness for C7: `restore 3` and a single READ of variable slot 0
(type SINGLE, previous value 1) from the DATA pool `[7]`. -/
theorem C7_restore_read_witness :
    (RESTORE.execute extZero (.num ((3 : Nat) : Rat))
        { baseSt with stack := [.num ((1 : Nat) : Rat), .ref 0],
                      objs := [HObj.scalar (.scalar .SINGLE) (.num 1)],
                      data := [.num 7] } =
      ({ baseSt with stack := [.num ((1 : Nat) : Rat), .ref 0],
                     objs := [HObj.scalar (.scalar .SINGLE) (.num 1)],
                     data := [.num 7], dataPtr := 3 }, none)) ∧
    (subREAD.action extZero
        { baseSt with stack := [.num ((1 : Nat) : Rat), .ref 0],
                      objs := [HObj.scalar (.scalar .SINGLE) (.num 1)],
                      data := [.num 7] }).2 = none ∧
    (subREAD.action extZero
        { baseSt with stack := [.num ((1 : Nat) : Rat), .ref 0],
                      objs := [HObj.scalar (.scalar .SINGLE) (.num 1)],
                      data := [.num 7] }).1.dataPtr = 1 := by
  have h := C7_restore_read
    { baseSt with stack := [.num ((1 : Nat) : Rat), .ref 0],
                  objs := [HObj.scalar (.scalar .SINGLE) (.num 1)],
                  data := [.num 7] }
    extZero 3 [0] []
    (by simp)
    (by intro r hr
        simp at hr
        exact ⟨.SINGLE, .num 1, by simp [hr]⟩)
    (by simp)
  exact ⟨h.1, h.2.1, h.2.2.1⟩

/-! ## Claim C9: non-RuntimeError exceptions are swallowed -/

/-- C9: when the fetched instruction's execute function throws a value
that is not a RuntimeError, runOneInstruction returns exactly the state
the execute function left (whose pc was already incremented before the
call) with no rethrown error — so no `error` event can be emitted and no
suspension happens on account of the catch — and the asynchronous
quantum loop simply continues with the next instruction. -/
theorem C9_swallow (prog : List ProgInstr) (ext : Ext) (exts : List Ext) (st st2 : VmSt)
    (pi : ProgInstr) (m : String) (k : Nat)
    (hfetch : prog.get? st.pc = some pi)
    (hexec : pi.instr.execute ext pi.arg { st with pc := st.pc + 1 } = (st2, some (.other m))) :
    runOneInstruction prog ext st = (st2, none) ∧
    (st.suspended = false →
      runSomeQuantum prog (ext :: exts) (k + 1) st = runSomeQuantum prog exts k st2) := by
  have hpc : st.pc < prog.length := List.get?_eq_some.mp hfetch |>.1
  have hone : runOneInstruction prog ext st = (st2, none) := by
    simp only [runOneInstruction, hfetch, hexec]
  refine ⟨hone, fun hsusp => ?_⟩
  simp only [runSomeQuantum, hpc, hsusp, List.headD_cons, hone, List.tail_cons]
  simp

/-- Witness for C9: the throwing instruction at pc 0 is swallowed; the
state it produced (pc already at 1) is returned without an error. -/
theorem C9_swallow_witness :
    runOneInstruction [⟨badInstr, .noArg, ⟨3, 4⟩⟩] extZero { baseSt with instrCount := 1 } =
      ({ baseSt with instrCount := 1, pc := 1 }, none) ∧
    ((({ baseSt with instrCount := 1 } : VmSt).suspended = false) →
      runSomeQuantum [⟨badInstr, .noArg, ⟨3, 4⟩⟩] (extZero :: []) (4 + 1)
          { baseSt with instrCount := 1 } =
        runSomeQuantum [⟨badInstr, .noArg, ⟨3, 4⟩⟩] [] 4
          { baseSt with instrCount := 1, pc := 1 }) :=
  C9_swallow [⟨badInstr, .noArg, ⟨3, 4⟩⟩] extZero [] { baseSt with instrCount := 1 }
    { baseSt with instrCount := 1, pc := 1 } ⟨badInstr, .noArg, ⟨3, 4⟩⟩ "boom" 4 rfl rfl

/-! ## Claim C1: error propagation through the dispatch loop -/

/-- Counterexample to C1 as stated: an instruction whose execute throws
a non-RuntimeError value.  The synchronous run loop neither emits an
`error` event nor suspends the VM — the exception is discarded — even
though an error was raised inside execute. -/
theorem C1_counterexample :
    (badInstr.execute extZero .noArg { baseSt with instrCount := 1, pc := 1 } =
      ({ baseSt with instrCount := 1, pc := 1 }, some (.other "boom"))) ∧
    (runSyncLoop [⟨badInstr, .noArg, ⟨3, 4⟩⟩] 2 [extZero]
        { baseSt with instrCount := 1 }).events = [] ∧
    (runSyncLoop [⟨badInstr, .noArg, ⟨3, 4⟩⟩] 2 [extZero]
        { baseSt with instrCount := 1 }).suspended = false :=
  ⟨rfl, rfl, rfl⟩

/-- C1 (amended): a `RuntimeError` raised inside execute is rethrown by
runOneInstruction decorated with the instruction's locus; the
asynchronous tick then suspends the VM and surfaces the decorated error
as an `error` event, while the synchronous run loop surfaces the same
event without suspending (the suspended flag stays as execute left it).
Exceptions that are not RuntimeError instances are discarded (see the
counterexample and C9). -/
theorem C1_runtime_error_propagation (prog : List ProgInstr) (ext : Ext) (exts : List Ext)
    (st st2 : VmSt) (pi : ProgInstr) (e : RuntimeError)
    (hfetch : prog.get? st.pc = some pi)
    (hexec : pi.instr.execute ext pi.arg { st with pc := st.pc + 1 } = (st2, some (.rt e)))
    (hsusp : st.suspended = false)
    (hquant : 0 < st.instructionsPerInterval) :
    runOneInstruction prog ext st = (st2, some ⟨e.code, e.message, some pi.locus⟩) ∧
    (runSome prog (ext :: exts) st).events =
      st2.events ++ [⟨e.code, e.message, some pi.locus⟩] ∧
    (runSome prog (ext :: exts) st).suspended = true ∧
    (∀ fuel, (runSyncLoop prog (fuel + 1) (ext :: exts) st).events =
      st2.events ++ [⟨e.code, e.message, some pi.locus⟩]) ∧
    (∀ fuel, (runSyncLoop prog (fuel + 1) (ext :: exts) st).suspended = st2.suspended) := by
  have hpc : st.pc < prog.length := List.get?_eq_some.mp hfetch |>.1
  have hone : runOneInstruction prog ext st =
      (st2, some ⟨e.code, e.message, some pi.locus⟩) := by
    simp only [runOneInstruction, hfetch, hexec]
  obtain ⟨k, hk⟩ : ∃ k, st.instructionsPerInterval = k + 1 :=
    ⟨st.instructionsPerInterval - 1, by omega⟩
  have hquantum : runSomeQuantum prog (ext :: exts) st.instructionsPerInterval st =
      (st2, some ⟨e.code, e.message, some pi.locus⟩) := by
    rw [hk]
    simp only [runSomeQuantum, hpc, hsusp, List.headD_cons, hone]
    simp
  refine ⟨hone, ?_, ?_, ?_, ?_⟩
  · simp only [runSome, hquantum, emitError, suspendVm]
    split <;> split <;> simp
  · simp only [runSome, hquantum, emitError, suspendVm]
    split <;> split <;> simp
  · intro fuel
    simp only [runSyncLoop, hpc, List.headD_cons, hone, emitError]
    simp
  · intro fuel
    simp only [runSyncLoop, hpc, List.headD_cons, hone, emitError]
    simp

/-- Witness for C1 (amended): a division by zero at pc 0: the event list
receives the locus-decorated code-101 error, and the asynchronous tick
suspends. -/
theorem C1_runtime_error_propagation_witness :
    runOneInstruction [⟨OP_DIV, .noArg, ⟨7, 3⟩⟩] extZero
        { baseSt with stack := [.num 0, .num 10], instrCount := 1 } =
      ({ baseSt with stack := [Value.num 10], instrCount := 1, pc := 1 },
       some ⟨RuntimeErrorCodes.DIVISION_BY_ZERO, "Division by zero", some ⟨7, 3⟩⟩) ∧
    (runSome [⟨OP_DIV, .noArg, ⟨7, 3⟩⟩] (extZero :: [])
        { baseSt with stack := [.num 0, .num 10], instrCount := 1 }).events =
      ({ baseSt with stack := [Value.num 10], instrCount := 1, pc := 1 } : VmSt).events ++
        [⟨RuntimeErrorCodes.DIVISION_BY_ZERO, "Division by zero", some ⟨7, 3⟩⟩] ∧
    (runSome [⟨OP_DIV, .noArg, ⟨7, 3⟩⟩] (extZero :: [])
        { baseSt with stack := [.num 0, .num 10], instrCount := 1 }).suspended = true := by
  have h := C1_runtime_error_propagation [⟨OP_DIV, .noArg, ⟨7, 3⟩⟩] extZero []
    { baseSt with stack := [.num 0, .num 10], instrCount := 1 }
    { baseSt with stack := [Value.num 10], instrCount := 1, pc := 1 }
    ⟨OP_DIV, .noArg, ⟨7, 3⟩⟩
    ⟨RuntimeErrorCodes.DIVISION_BY_ZERO, "Division by zero", none⟩
    rfl rfl rfl (by decide)
  exact ⟨h.1, h.2.1, h.2.2.1⟩

/-! ## Claim C8: the tokenizer's bad-character error -/

/-- Counterexample to C8 as stated: the message the parse loop records
for a bad character at line 0, column 0 is the source's doubled-`at`
form, which differs from the `Bad character at 1:1` shape the claim
describes. -/
theorem C8_counterexample :
    (parseLoop ⟨fun t _ => t, fun _ _ => none, fun _ => []⟩ (fun _ _ => none) 5
        ⟨[], (), 0, 0⟩).errors = [badCharMessage 0 0] ∧
    badCharMessage 0 0 = "Bad character at at 1:1" ∧
    specBadCharMessage 0 0 = "Bad character at 1:1" ∧
    badCharMessage 0 0 ≠ specBadCharMessage 0 0 :=
  ⟨rfl, rfl, rfl, by decide⟩

/-- C8 (amended): when the tokenizer returns a null token at restart
position (L, C), the parse loop appends exactly one error message —
`Bad character at at (L+1):(C+1)`, with the doubled `at` verbatim from
the source — and terminates at once: the stack tops are left untouched
and no further token is pulled. -/
theorem C8_badchar {α : Type} (hooks : GlrHooks α) (tok : Nat → Nat → Option Token)
    (fuel : Nat) (ps : ParseState α)
    (hnull : tok ps.line ps.position = none) :
    parseLoop hooks tok (fuel + 1) ps =
      { ps with errors := ps.errors ++ [badCharMessage ps.line ps.position] } := by
  simp only [parseLoop, hnull]

/-- Witness for C8 (amended) at line 2, column 5 with two prior
errors. -/
theorem C8_badchar_witness :
    parseLoop ⟨fun t _ => t, fun _ _ => none, fun _ => []⟩ (fun _ _ => none) 3
        ⟨["e1", "e2"], (), 2, 5⟩ =
      ⟨["e1", "e2", badCharMessage 2 5], (), 2, 5⟩ :=
  C8_badchar ⟨fun t _ => t, fun _ _ => none, fun _ => []⟩ (fun _ _ => none) 2
    ⟨["e1", "e2"], (), 2, 5⟩ rfl

/-! ## Claim C10: lastRandomNumber is never written

The lemmas below establish, primitive by primitive and then table entry
by table entry, that no operation of the VM or of the syscall layer ever
writes the `lastRandomNumber` field. -/

/-- pop leaves lastRandomNumber alone. -/
@[simp] theorem pop_lrn (st : VmSt) : (pop st).1.lastRandomNumber = st.lastRandomNumber := by
  cases hs : st.stack <;> simp [pop, hs]

/-- push leaves lastRandomNumber alone. -/
@[simp] theorem push_lrn (st : VmSt) (v : Value) :
    (push st v).lastRandomNumber = st.lastRandomNumber := rfl

/-- Recording a console call leaves lastRandomNumber alone. -/
@[simp] theorem consoleOp_lrn (st : VmSt) (op : ConsOp) :
    (consoleOp st op).lastRandomNumber = st.lastRandomNumber := rfl

/-- Recording an audio call leaves lastRandomNumber alone. -/
@[simp] theorem audioOp_lrn (st : VmSt) (op : AudioOp) :
    (audioOp st op).lastRandomNumber = st.lastRandomNumber := rfl

/-- Recording a host call leaves lastRandomNumber alone. -/
@[simp] theorem hostOp_lrn (st : VmSt) (op : HostOp) :
    (hostOp st op).lastRandomNumber = st.lastRandomNumber := rfl

/-- Emitting an error event leaves lastRandomNumber alone. -/
@[simp] theorem emitError_lrn (st : VmSt) (e : RuntimeError) :
    (emitError st e).lastRandomNumber = st.lastRandomNumber := rfl

/-- suspend leaves lastRandomNumber alone. -/
@[simp] theorem suspendVm_lrn (st : VmSt) :
    (suspendVm st).lastRandomNumber = st.lastRandomNumber := by
  simp only [suspendVm]
  split <;> rfl

/-- Writing a variable cell leaves lastRandomNumber alone. -/
@[simp] theorem setDotValue_lrn (st : VmSt) (v w : Value) :
    (setDotValue st v w).1.lastRandomNumber = st.lastRandomNumber := by
  cases v with
  | ref r =>
    cases h : st.objs[r]? with
    | none => simp [setDotValue, h]
    | some o => cases o <;> simp [setDotValue, h]
  | num q => rfl
  | str s => rfl
  | vnull => rfl
  | undefV => rfl
  | nanV => rfl
  | typeV t => rfl

/-- popValue leaves lastRandomNumber alone. -/
@[simp] theorem popValue_lrn (st : VmSt) :
    (popValue st).1.lastRandomNumber = st.lastRandomNumber := by
  simp [popValue]

/-- Allocating record fields leaves lastRandomNumber alone. -/
@[simp] theorem allocFields_lrn :
    ∀ (fields : List (String × ScalarTypeName)) (st : VmSt),
      (allocFields st fields).1.lastRandomNumber = st.lastRandomNumber
  | [], _ => rfl
  | (n, s) :: rest, st => by
    have ih : ∀ st' : VmSt, (allocFields st' rest).1.lastRandomNumber =
        st'.lastRandomNumber := fun st' => allocFields_lrn rest st'
    simp [allocFields, ih]

/-- createInstance leaves lastRandomNumber alone. -/
@[simp] theorem createInstanceV_lrn (st : VmSt) (t : VmType) :
    (createInstanceV st t).1.lastRandomNumber = st.lastRandomNumber := by
  cases t with
  | scalar s => rfl
  | user fields => simp [createInstanceV]

/-- Copying record fields leaves lastRandomNumber alone. -/
@[simp] theorem copyUserFields_lrn :
    ∀ (fvs : List (String × Value)) (st : VmSt),
      (copyUserFields st fvs).1.lastRandomNumber = st.lastRandomNumber
  | [], _ => rfl
  | (n, fv) :: rest, st => by
    have ih : ∀ st' : VmSt, (copyUserFields st' rest).1.lastRandomNumber =
        st'.lastRandomNumber := fun st' => copyUserFields_lrn rest st'
    cases fv with
    | ref r =>
      cases h : st.objs[r]? with
      | none => simp [copyUserFields, h, ih]
      | some o => cases o <;> simp [copyUserFields, h, ih]
    | num q => simp [copyUserFields, ih]
    | str s => simp [copyUserFields, ih]
    | vnull => simp [copyUserFields, ih]
    | undefV => simp [copyUserFields, ih]
    | nanV => simp [copyUserFields, ih]
    | typeV t => simp [copyUserFields, ih]

/-- Type copy leaves lastRandomNumber alone. -/
@[simp] theorem copyV_lrn (st : VmSt) (t : VmType) (v : Value) :
    (copyV st t v).1.lastRandomNumber = st.lastRandomNumber := by
  cases t with
  | scalar s => rfl
  | user fields =>
    cases v with
    | ref r =>
      cases h : st.objs[r]? with
      | none => simp [copyV, h]
      | some o => cases o <;> simp [copyV, h]
    | num q => rfl
    | str s => rfl
    | vnull => rfl
    | undefV => rfl
    | nanV => rfl
    | typeV t0 => rfl

/-- Convert a split equation on a state-returning call into a
lastRandomNumber equation. -/
theorem lrn_eq_of {α : Type} {p : VmSt × α} {s : VmSt} {x : α}
    (h : p = (s, x)) : s.lastRandomNumber = p.1.lastRandomNumber := by rw [h]

/-- Variable creation leaves lastRandomNumber alone. -/
@[simp] theorem createVar_lrn (st : VmSt) (fr : StackFrame) (name : String) :
    (createVar st fr name).1.lastRandomNumber = st.lastRandomNumber := by
  cases hd : DeriveTypeNameFromVariable name with
  | none => simp [createVar, hd]
  | some tn =>
    cases hl : lookupStr st.types tn with
    | none => simp [createVar, hd, hl]
    | some t => simp [createVar, hd, hl]

/-- getVariable (after frame selection) leaves lastRandomNumber
alone. -/
@[simp] theorem getVariableInFrame_lrn (st : VmSt) (fr? : Option StackFrame) (name : String) :
    (getVariableInFrame st fr? name).1.lastRandomNumber = st.lastRandomNumber := by
  cases fr? with
  | none => rfl
  | some fr =>
    cases hl : lookupStr (frameMap st fr) name with
    | none => simp [getVariableInFrame, hl]
    | some v =>
      by_cases ht : jsTruthy v = true <;> simp [getVariableInFrame, hl, ht]

/-- getVariable leaves lastRandomNumber alone. -/
@[simp] theorem getVariable_lrn (st : VmSt) (name : String) :
    (getVariable st name).1.lastRandomNumber = st.lastRandomNumber := by
  simp [getVariable]

/-- setVariable (after frame selection) leaves lastRandomNumber
alone. -/
@[simp] theorem setVariableInFrame_lrn (st : VmSt) (fr? : Option StackFrame) (name : String)
    (v : Value) :
    (setVariableInFrame st fr? name v).1.lastRandomNumber = st.lastRandomNumber := by
  cases fr? <;> rfl

/-- setVariable leaves lastRandomNumber alone. -/
@[simp] theorem setVariable_lrn (st : VmSt) (name : String) (v : Value) :
    (setVariable st name v).1.lastRandomNumber = st.lastRandomNumber := by
  simp [setVariable]

/-- popNArgs leaves lastRandomNumber alone. -/
@[simp] theorem popNArgs_lrn (st : VmSt) (n : Nat) :
    (popNArgs st n).1.lastRandomNumber = st.lastRandomNumber := rfl

/-- popDims leaves lastRandomNumber alone. -/
@[simp] theorem popDims_lrn : ∀ (st : VmSt) (n : Nat),
    (popDims st n).1.lastRandomNumber = st.lastRandomNumber
  | _, 0 => rfl
  | st, n + 1 => by
    have ih : ∀ st' : VmSt, (popDims st' n).1.lastRandomNumber = st'.lastRandomNumber :=
      fun st' => popDims_lrn st' n
    simp [popDims, ih]

/-- popIndexes leaves lastRandomNumber alone. -/
@[simp] theorem popIndexes_lrn : ∀ (st : VmSt) (n : Nat),
    (popIndexes st n).1.lastRandomNumber = st.lastRandomNumber
  | _, 0 => rfl
  | st, n + 1 => by
    have ih : ∀ st' : VmSt, (popIndexes st' n).1.lastRandomNumber = st'.lastRandomNumber :=
      fun st' => popIndexes_lrn st' n
    cases hs : st.stack with
    | nil => simp [popIndexes, hs]
    | cons v rest => simp [popIndexes, hs, ih]

/-- Array-cell allocation leaves lastRandomNumber alone. -/
@[simp] theorem allocArrayCells_lrn (t : VmType) : ∀ (n : Nat) (st : VmSt),
    (allocArrayCells st t n).1.lastRandomNumber = st.lastRandomNumber
  | 0, _ => rfl
  | n + 1, st => by
    have ih : ∀ st' : VmSt, (allocArrayCells st' t n).1.lastRandomNumber =
        st'.lastRandomNumber := fun st' => allocArrayCells_lrn t n st'
    simp [allocArrayCells, ih]

/-- A READ step leaves lastRandomNumber alone. -/
@[simp] theorem readStep_lrn (st : VmSt) (r : Value) :
    (readStep st r).1.lastRandomNumber = st.lastRandomNumber := by
  simp only [readStep]
  split
  next st2 e heq => simp [lrn_eq_of heq]
  next st2 heq =>
    have h2 : st2.lastRandomNumber = st.lastRandomNumber := by
      have h := lrn_eq_of heq
      simpa using h
    repeat' split
    all_goals simp [h2]

/-- The READ loop leaves lastRandomNumber alone. -/
@[simp] theorem readLoop_lrn : ∀ (args : List Value) (st : VmSt),
    (readLoop st args).1.lastRandomNumber = st.lastRandomNumber
  | [], _ => rfl
  | r :: rest, st => by
    have ih : ∀ st' : VmSt, (readLoop st' rest).1.lastRandomNumber = st'.lastRandomNumber :=
      fun st' => readLoop_lrn rest st'
    simp only [readLoop]
    split
    next st1 heq =>
      rw [ih st1, lrn_eq_of heq]
      simp
    next st1 e heq => simp [lrn_eq_of heq]

/-- bindValue preserves lastRandomNumber when its continuation does. -/
theorem bindValue_lrn (r : VmSt × Except JsErr Value) (k : VmSt → Value → ActionResult)
    (hk : ∀ s v, ((k s v).1).lastRandomNumber = s.lastRandomNumber) :
    ((bindValue r k).1).lastRandomNumber = r.1.lastRandomNumber := by
  rcases r with ⟨s, e⟩
  cases e <;> simp [bindValue, hk]

/-- No system function writes lastRandomNumber — in particular RND only
reads it. -/
theorem SystemFunctions_lrn : ∀ p ∈ SystemFunctions, ∀ (ext : Ext) (st : VmSt),
    ((p.2.action ext st).1).lastRandomNumber = st.lastRandomNumber := by
  intro p hp ext st
  fin_cases hp <;>
  · simp only [SystemFunctions, fnRND, fnCHR, fnINKEY, fnLEN, fnMID, fnLEFT, fnRIGHT,
      fnTIMER, fnPEEK, fnLCASE, fnUCASE, fnSTR, fnSPACE, fnVAL, fnINT]
    repeat' split
    all_goals simp

/-- bindValue over a popped-and-dereferenced argument preserves
lastRandomNumber when the continuation does. -/
theorem bindPop_lrn (st : VmSt) (k : VmSt → Value → ActionResult)
    (hk : ∀ s v, ((k s v).1).lastRandomNumber = s.lastRandomNumber) :
    ((bindValue (popValue st) k).1).lastRandomNumber = st.lastRandomNumber :=
  (bindValue_lrn _ _ hk).trans (popValue_lrn st)

/-- No system subroutine writes lastRandomNumber. -/
theorem SystemSubroutines_lrn : ∀ p ∈ SystemSubroutines, ∀ (ext : Ext) (st : VmSt),
    ((p.2.action ext st).1).lastRandomNumber = st.lastRandomNumber := by
  intro p hp ext st
  fin_cases hp
  · rfl
  · rfl
  · simp [subRANDOMIZE]
  · -- PLAY
    simp only [subPLAY]
    refine (bindPop_lrn _ _ ?_).trans (by simp)
    intro s2 music
    split
    · refine bindPop_lrn _ _ ?_
      intro s3 r
      split <;> simp
    · split <;> simp
  · -- BGMPLAY
    simp only [subBGMPLAY]
    refine (bindPop_lrn _ _ ?_).trans (by simp)
    intro s2 music
    split
    · refine bindPop_lrn _ _ ?_
      intro s3 r
      split <;> simp
    · split <;> simp
  · -- BGMSTOP
    simp only [subBGMSTOP]
    split <;> simp
  · -- SLEEP
    simp only [subSLEEP]
    split
    · refine (bindPop_lrn _ _ ?_).trans (by simp)
      intro s v
      simp
    · simp
  · rfl
  · -- print_using
    simp only [subPrintUsing]
    split
    · simp
    · refine (bindValue_lrn _ _ ?_).trans (by simp)
      intro s v
      repeat' split
      all_goals simp
  · -- LOCATE
    simp only [subLOCATE]
    exact bindPop_lrn _ _ fun s1 c => bindPop_lrn _ _ fun s2 r => by simp
  · -- COLOR
    simp only [subCOLOR]
    split
    · refine (bindPop_lrn _ _ ?_).trans (by simp)
      intro s1 bo
      exact bindPop_lrn _ _ fun s2 bg => bindPop_lrn _ _ fun s3 fg => by simp
    · split
      · refine (bindPop_lrn _ _ ?_).trans (by simp)
        intro s1 bg
        exact bindPop_lrn _ _ fun s2 fg => by simp
      · refine (bindPop_lrn _ _ ?_).trans (by simp)
        intro s1 fg
        simp
  · -- READ
    simp [subREAD]
  · -- SCREEN
    simp only [subSCREEN]
    exact bindPop_lrn _ _ fun s m => by simp
  · -- INPUT
    simp [subINPUT]
  · -- SWAP
    simp only [subSWAP]
    refine (bindValue_lrn _ _ ?_).trans (by simp)
    intro s3 temp
    refine bindValue_lrn _ _ ?_
    intro s4 rv
    split
    next s5 e heq => simp [lrn_eq_of heq]
    next s5 heq => simp [lrn_eq_of heq]
  · -- WIDTH
    simp [subWIDTH]
  · -- YIELD
    simp [subYIELD]
  · -- SPSET
    simp only [subSPSET]
    split
    · refine (bindPop_lrn _ _ ?_).trans (by simp)
      intro s2 f
      exact bindPop_lrn _ _ fun s3 i => bindPop_lrn _ _ fun s4 n => by simp
    · refine (bindPop_lrn _ _ ?_).trans (by simp)
      intro s2 i
      exact bindPop_lrn _ _ fun s3 n => by simp
  · -- SPOFS
    simp only [subSPOFS]
    exact bindPop_lrn _ _ fun s1 y => bindPop_lrn _ _ fun s2 x =>
      bindPop_lrn _ _ fun s3 n => by simp
  · -- SPSCALE
    simp only [subSPSCALE]
    exact bindPop_lrn _ _ fun s1 y => bindPop_lrn _ _ fun s2 x =>
      bindPop_lrn _ _ fun s3 n => by simp
  · -- SPROT
    simp only [subSPROT]
    exact bindPop_lrn _ _ fun s1 a => bindPop_lrn _ _ fun s2 n => by simp
  · -- SPHOME
    simp only [subSPHOME]
    exact bindPop_lrn _ _ fun s1 y => bindPop_lrn _ _ fun s2 x =>
      bindPop_lrn _ _ fun s3 n => by simp
  · -- SPHIDE
    simp only [subSPHIDE]
    exact bindPop_lrn _ _ fun s1 n => by simp
  · -- SPSHOW
    simp only [subSPSHOW]
    exact bindPop_lrn _ _ fun s1 n => by simp
  · -- SPANIM
    simp only [subSPANIM]
    split
    · refine (bindPop_lrn _ _ ?_).trans (by simp)
      intro s2 l
      exact bindPop_lrn _ _ fun s3 a => bindPop_lrn _ _ fun s4 b =>
        bindPop_lrn _ _ fun s5 n => by simp
    · refine (bindPop_lrn _ _ ?_).trans (by simp)
      intro s2 a
      exact bindPop_lrn _ _ fun s3 b => bindPop_lrn _ _ fun s4 n => by simp
  · -- SPCLR
    simp only [subSPCLR]
    exact bindPop_lrn _ _ fun s1 n => by simp

/-- A successful lookup in an association list hits a member. -/
theorem lookupStr_mem {α : Type} : ∀ {l : List (String × α)} {k : String} {v : α},
    lookupStr l k = some v → (k, v) ∈ l
  | [], _, _, h => by simp [lookupStr] at h
  | (k', w) :: rest, k, v, h => by
    by_cases he : k' = k
    · subst he
      rw [lookupStr, if_pos rfl] at h
      injection h with h
      subst h
      exact List.mem_cons_self _ _
    · rw [lookupStr, if_neg he] at h
      exact List.mem_cons_of_mem _ (lookupStr_mem h)

/-- The whole syscall dispatch leaves lastRandomNumber alone. -/
@[simp] theorem syscallRun_lrn (ext : Ext) (a : String) (st : VmSt) :
    ((syscallRun ext a st).1).lastRandomNumber = st.lastRandomNumber := by
  simp only [syscallRun]
  split_ifs
  · simp [sysPrint]
  · simp only [sysAllocArray]
    repeat' split
    all_goals simp
  · simp [sysPrintComma]
  · simp only [sysPrintTab]
    repeat' split
    all_goals simp
  · simp only [sysAllocScalar]
    repeat' split
    all_goals simp
  · cases hf : lookupStr SystemFunctions a with
    | some f =>
      simp only [hf]
      exact SystemFunctions_lrn (a, f) (lookupStr_mem hf) ext st
    | none =>
      cases hs : lookupStr SystemSubroutines a with
      | some s =>
        simp only [hf, hs]
        exact SystemSubroutines_lrn (a, s) (lookupStr_mem hs) ext st
      | none => simp [hf, hs]

/-- No instruction of the dispatch table writes lastRandomNumber. -/
theorem Instructions_lrn : ∀ p ∈ Instructions, ∀ (ext : Ext) (arg : IArg) (st : VmSt),
    ((p.2.execute ext arg st).1).lastRandomNumber = st.lastRandomNumber := by
  intro p hp ext arg st
  fin_cases hp
  · -- FORLOOP
    simp only [FORLOOP]
    split <;> simp
  · simp [COPYTOP]
  · rfl
  · -- POPVAL
    simp only [POPVAL]
    split
    next st1 e heq => simp [lrn_eq_of heq]
    next st1 v heq => simp [lrn_eq_of heq]
  · simp [POP]
  · -- PUSHREF
    simp only [PUSHREF]
    split
    next st1 e heq => simp [lrn_eq_of heq]
    next st1 v heq => simp [lrn_eq_of heq]
  · -- PUSHVALUE
    simp only [PUSHVALUE]
    split
    next st1 e heq => simp [lrn_eq_of heq]
    next st1 v heq => split <;> simp [lrn_eq_of heq]
  · -- PUSHTYPE
    simp only [PUSHTYPE]
    split <;> simp
  · simp [POPVAR]
  · -- NEW
    simp only [NEW]
    split <;> simp
  · rfl
  · -- UNARY_OP
    simp only [UNARY_OP]
    split <;> simp
  · simp [OP_EQ]
  · simp [OP_LT]
  · simp [OP_LE]
  · simp [OP_GT]
  · simp [OP_GE]
  · simp [OP_NE]
  · simp [AND]
  · simp [OR]
  · simp [OP_ADD]
  · simp [OP_SUB]
  · simp [OP_MUL]
  · -- OP_DIV
    simp only [OP_DIV]
    split <;> simp
  · -- MOD
    simp only [OP_MOD]
    split <;> simp
  · -- BZ
    simp only [BZ]
    split <;> simp
  · -- BNZ
    simp only [BNZ]
    split <;> simp
  · rfl
  · rfl
  · -- GOSUB
    simp only [GOSUB]
    split <;> simp
  · -- RET
    simp only [RET]
    split <;> simp
  · rfl
  · -- ARRAY_DEREF
    simp only [ARRAY_DEREF]
    split
    · split
      · split
        next st2 e heq => simp [lrn_eq_of heq]
        next st2 idx heq =>
          split
          · simp [lrn_eq_of heq]
          · split <;> simp [lrn_eq_of heq]
      · simp
    · simp
  · -- MEMBER_DEREF
    simp only [MEMBER_DEREF]
    repeat' split
    all_goals simp
  · -- MEMBER_VALUE
    simp only [MEMBER_VALUE]
    repeat' split
    all_goals simp
  · -- ASSIGN
    simp only [ASSIGN]
    repeat' split
    all_goals simp
  · -- SYSCALL
    simp only [SYSCALL]
    cases arg with
    | str a => exact syscallRun_lrn ext a st
    | num q => rfl
    | noArg => rfl

/-- One dispatch step of a program built from the instruction table
leaves lastRandomNumber alone. -/
theorem runOneInstruction_lrn (prog : List ProgInstr)
    (hcore : ∀ pi ∈ prog, ∃ nm, (nm, pi.instr) ∈ Instructions)
    (ext : Ext) (st : VmSt) :
    ((runOneInstruction prog ext st).1).lastRandomNumber = st.lastRandomNumber := by
  simp only [runOneInstruction]
  split
  · rfl
  next pi hfetch =>
    obtain ⟨nm, hnm⟩ := hcore pi (List.get?_mem hfetch)
    have h := Instructions_lrn (nm, pi.instr) hnm ext pi.arg { st with pc := st.pc + 1 }
    split
    next st2 heq =>
      rw [lrn_eq_of heq]
      simpa using h
    next st2 e heq =>
      rw [lrn_eq_of heq]
      simpa using h
    next st2 m heq =>
      rw [lrn_eq_of heq]
      simpa using h

/-- The asynchronous quantum loop leaves lastRandomNumber alone. -/
theorem runSomeQuantum_lrn (prog : List ProgInstr)
    (hcore : ∀ pi ∈ prog, ∃ nm, (nm, pi.instr) ∈ Instructions) :
    ∀ (k : Nat) (exts : List Ext) (st : VmSt),
      ((runSomeQuantum prog exts k st).1).lastRandomNumber = st.lastRandomNumber
  | 0, _, _ => rfl
  | k + 1, exts, st => by
    have ih := runSomeQuantum_lrn prog hcore k exts.tail
    simp only [runSomeQuantum]
    split
    · split
      next st' heq =>
        rw [ih st', lrn_eq_of heq]
        exact runOneInstruction_lrn prog hcore _ st
      next st' e heq =>
        rw [lrn_eq_of heq]
        exact runOneInstruction_lrn prog hcore _ st
    · rfl

/-- The asynchronous tick (with its catch and its ticker shutdown)
leaves lastRandomNumber alone. -/
theorem runSome_lrn (prog : List ProgInstr)
    (hcore : ∀ pi ∈ prog, ∃ nm, (nm, pi.instr) ∈ Instructions)
    (exts : List Ext) (st : VmSt) :
    (runSome prog exts st).lastRandomNumber = st.lastRandomNumber := by
  simp only [runSome]
  repeat' split
  all_goals simp [runSomeQuantum_lrn prog hcore]

/-- The synchronous run loop leaves lastRandomNumber alone. -/
theorem runSyncLoop_lrn (prog : List ProgInstr)
    (hcore : ∀ pi ∈ prog, ∃ nm, (nm, pi.instr) ∈ Instructions) :
    ∀ (fuel : Nat) (exts : List Ext) (st : VmSt),
      (runSyncLoop prog fuel exts st).lastRandomNumber = st.lastRandomNumber
  | 0, _, _ => rfl
  | fuel + 1, exts, st => by
    have ih := runSyncLoop_lrn prog hcore fuel exts.tail
    simp only [runSyncLoop]
    split
    · split
      next st' heq =>
        rw [ih st', lrn_eq_of heq]
        exact runOneInstruction_lrn prog hcore _ st
      next st' e heq =>
        have h2 := lrn_eq_of heq
        simp only [emitError]
        rw [h2]
        exact runOneInstruction_lrn prog hcore _ st
    · rfl

/-- reset leaves lastRandomNumber alone (it is initialized only in the
constructor). -/
theorem resetVm_lrn (st : VmSt) (n : Nat) (types : List (String × VmType)) (dt : VmType)
    (data : List Value) (shared : List String) :
    (resetVm st n types dt data shared).lastRandomNumber = st.lastRandomNumber := rfl

/-- Dispatch steps preserve lastRandomNumber along any reachable
execution of a table-built program. -/
theorem reachable_lrn (prog : List ProgInstr)
    (hcore : ∀ pi ∈ prog, ∃ nm, (nm, pi.instr) ∈ Instructions) :
    ∀ st0 st, ReachableFrom prog st0 st → st.lastRandomNumber = st0.lastRandomNumber := by
  intro st0 st h
  induction h with
  | refl => rfl
  | step st1 st2 ext r hreach heq ih =>
    have h2 := runOneInstruction_lrn prog hcore ext st1
    rw [heq] at h2
    exact (show st2.lastRandomNumber = st1.lastRandomNumber by simpa using h2).trans ih

/-- C10: no operation of the VM or the syscall layer — no instruction of
the dispatch table, no system function or subroutine, no dispatch step,
and not reset — ever writes `lastRandomNumber` after its initialization
to 0.  In particular RND only reads it, so in every state reachable from
a zero-initialized machine, calling RND with one argument strictly equal
to 0 pushes 0, however many RND calls with nonzero arguments came
before. -/
theorem C10_lastRandomNumber (prog : List ProgInstr)
    (hcore : ∀ pi ∈ prog, ∃ nm, (nm, pi.instr) ∈ Instructions) :
    (∀ p ∈ Instructions, ∀ (ext : Ext) (arg : IArg) (st : VmSt),
      ((p.2.execute ext arg st).1).lastRandomNumber = st.lastRandomNumber) ∧
    (∀ p ∈ SystemFunctions, ∀ (ext : Ext) (st : VmSt),
      ((p.2.action ext st).1).lastRandomNumber = st.lastRandomNumber) ∧
    (∀ p ∈ SystemSubroutines, ∀ (ext : Ext) (st : VmSt),
      ((p.2.action ext st).1).lastRandomNumber = st.lastRandomNumber) ∧
    (∀ (ext : Ext) (st : VmSt),
      ((runOneInstruction prog ext st).1).lastRandomNumber = st.lastRandomNumber) ∧
    (∀ st0 st, st0.lastRandomNumber = 0 → ReachableFrom prog st0 st →
      st.lastRandomNumber = 0 ∧
      (∀ (ext : Ext) (rest : List Value), st.stack = Value.num 1 :: Value.num 0 :: rest →
        fnRND.action ext st = ({ st with stack := Value.num 0 :: rest }, none))) := by
  refine ⟨Instructions_lrn, SystemFunctions_lrn, SystemSubroutines_lrn,
    runOneInstruction_lrn prog hcore, ?_⟩
  intro st0 st h0 hreach
  have hlrn : st.lastRandomNumber = 0 := (reachable_lrn prog hcore st0 st hreach).trans h0
  refine ⟨hlrn, ?_⟩
  intro ext rest hstk
  simp [fnRND, pop, hstk, jsStrictEq, push, hlrn]

/-- Witness for C10: from a freshly constructed machine (reachable by
zero steps of a one-instruction pushconst program), RND with count 1 and
argument 0 pushes 0. -/
theorem C10_lastRandomNumber_witness :
    fnRND.action extZero { baseSt with stack := [.num 1, .num 0] } =
      ({ baseSt with stack := [Value.num 0] }, none) :=
  ((C10_lastRandomNumber [⟨PUSHCONST, .num 5, ⟨0, 0⟩⟩]
      (by
        intro pi hpi
        simp only [List.mem_singleton] at hpi
        exact ⟨"PUSHCONST", by rw [hpi]; simp [Instructions]⟩)).2.2.2.2
    { baseSt with stack := [.num 1, .num 0] } { baseSt with stack := [.num 1, .num 0] }
    rfl (ReachableFrom.refl _)).2 extZero [] rfl

end QB
